import Mathlib

/-!
Shallow embedding of the SpectraST `.splib` library importer
(`SpectraSTSpLibImporter.cpp`) and proofs about it.

Conventions of the embedding:

* C++ `double` values (probabilities, m/z, dot products, thresholds) are
  modelled as `ℚ` with exact comparison; none of the verified properties
  depends on floating-point rounding.
* C++ `unsigned int` arithmetic is modelled as `Nat`; where the source can
  wrap around (the `numAssignedTop20 - 2` subtraction in `isImpure`) the
  wrap is made explicit with `% 2 ^ 32`.
* Collaborator classes that are out of scope of this subsystem (peak-list
  numerics, the peptide homology comparator, the replicate reducer, the
  entry filter predicates of the base class, `processEntry`'s
  comment/protein rewriting) are modelled as oracle function fields of a
  `Collab` context, universally quantified in the theorems.
* Fallible steps (dereference of the possibly-NULL quality-filter search
  library `m_QFSearchLib`) return `Option`; `none` models the crash.
-/

/-- Peptide identity as used by the importer: stripped sequence, charge and
modification string.  Equality models the collaborator `Peptide::operator==`
(an identical peptide ion). -/
structure Peptide where
  stripped : String
  charge : Int
  mods : String
deriving DecidableEq

/-- One peak of a peak list.  `numRepsWithPeak` is the replicate-support
count consulted by the peak-quorum pruning. -/
structure Peak where
  mz : ℚ
  intensity : ℚ
  numRepsWithPeak : Nat
deriving DecidableEq

/-- A library entry (`SpectraSTLibEntry`), restricted to the fields the
importer reads: status label, library id, file offset, replicate count,
probability, charge, precursor m/z, fragmentation type, optional peptide,
the parsed `Se` comment (number of search engines), the parsed
`FracUnassigned` comment (top-20 fields), and the owned peak list. -/
structure Entry where
  status : String
  libId : Nat
  libFileOffset : Nat
  nrepsUsed : Nat
  prob : ℚ
  charge : Int
  precursorMz : ℚ
  fragType : String
  peptide : Option Peptide
  seEngines : Option Nat
  fracUnassignedTop20 : ℚ
  numUnassignedTop20 : Nat
  numAssignedTop20 : Nat
  peaks : List Peak
deriving DecidableEq

/-- The re-opened search copy of the library used by the quality filter
(`m_QFSearchLib`): its entries (for the m/z-window retrieval of the
conflicting-ID check) and the peptide index's `hasSharedSequence` query
(a collaborator, taken as an oracle on peptide and fragmentation type). -/
structure RefLib where
  entries : List Entry
  sharedSeq : Peptide → String → Bool

/-- Oracle bundle for the collaborator interfaces the importer consumes:
peak-list dot product (`SpectraSTPeakList::compare`), peak-list
simplification (`simplify(50, 99999)`), the peptide homology comparator
(`Peptide::isHomolog` at a minimum-identity threshold), the entry filter
predicate (`passAllFilters`), the entry rewriting done by `processEntry`,
the peptide-ion key of an entry as registered by the output library's
peptide index on insertion, and the replicate reducer. -/
structure Collab where
  compare : List Peak → List Peak → ℚ
  simplify : List Peak → List Peak
  isHomolog : Peptide → Peptide → ℚ → Bool
  pass : Entry → Bool
  process : Entry → Entry
  entryKey : Entry → String × String
  findBestReplicate : List Entry → Option Entry
  makeConsensus : List Entry → Option Entry

/-- The subset of `SpectraSTCreateParams` consulted by the modelled code. -/
structure CreateParams where
  combineAction : String
  buildAction : String
  qualityLevelRemove : Nat
  qualityLevelMark : Nat
  qualityImmuneProbThreshold : ℚ
  qualityImmuneMultipleEngines : Bool
  qualityPenalizeSingletons : Bool
  minimumNumReplicates : Nat
  peakQuorum : ℚ
  unidentifiedClusterMinimumDot : ℚ
  allowableModTokens : String
deriving DecidableEq

/-- The quality-filter statistics record (`QFStats`): one counter per
quality concern and per non-empty intersection of concerns, plus the two
immunity counters.  `count` models the member counter `m_count`, which is
incremented at the top of `applyQualityFilter`. -/
structure QFStats where
  immuneProb : Nat
  immuneEngine : Nat
  Q1 : Nat
  Q2 : Nat
  Q3 : Nat
  Q4 : Nat
  Q5 : Nat
  Q1Q2 : Nat
  Q1Q3 : Nat
  Q1Q4 : Nat
  Q1Q5 : Nat
  Q2Q3 : Nat
  Q2Q4 : Nat
  Q2Q5 : Nat
  Q3Q4 : Nat
  Q3Q5 : Nat
  Q4Q5 : Nat
  Q1Q2Q3 : Nat
  Q1Q2Q4 : Nat
  Q1Q2Q5 : Nat
  Q1Q3Q4 : Nat
  Q1Q3Q5 : Nat
  Q1Q4Q5 : Nat
  Q2Q3Q4 : Nat
  Q2Q3Q5 : Nat
  Q2Q4Q5 : Nat
  Q3Q4Q5 : Nat
  Q1Q2Q3Q4 : Nat
  Q1Q2Q3Q5 : Nat
  Q1Q2Q4Q5 : Nat
  Q1Q3Q4Q5 : Nat
  Q2Q3Q4Q5 : Nat
  Q1Q2Q3Q4Q5 : Nat
  count : Nat
deriving DecidableEq

/-- The all-zero statistics record (the `memset` in `doQualityFilter`). -/
def qfStatsZero : QFStats :=
  ⟨0, 0, 0, 0, 0, 0, 0, 0, 0, 0, 0, 0, 0, 0, 0, 0, 0,
   0, 0, 0, 0, 0, 0, 0, 0, 0, 0, 0, 0, 0, 0, 0, 0, 0⟩

/-- Number of search engines of an entry: 1 unless the multiple-engines
immunity option is on and the `Se` comment is present, in which case the
parsed leading count is used. -/
def numSeqEngines (p : CreateParams) (e : Entry) : Nat :=
  if p.qualityImmuneMultipleEngines then
    match e.seEngines with
    | some n => n
    | none => 1
  else 1

/-- Unsigned 32-bit value of `numAssignedTop20 - 2`, as computed by the C++
`unsigned int` subtraction in `isImpure` (it wraps when the count is 0 or 1). -/
def assignedMinusTwo (numAssigned : Nat) : Nat :=
  (numAssigned % 2 ^ 32 + 2 ^ 32 - 2) % 2 ^ 32

/-- Level-1 impurity check (`isImpure`).  Entries without a peptide are never
impure; charge +1 entries are immune; otherwise the top-20
fraction-unassigned statistics decide, with the extra unassigned-peak-count
test for penalized singletons.  The statistics are carried on the entry
(the parsed or freshly computed `FracUnassigned` data). -/
def isImpureB (p : CreateParams) (e : Entry) : Bool :=
  match e.peptide with
  | none => false
  | some _ =>
    if e.charge = 1 ∨
       ((¬p.qualityPenalizeSingletons = true ∨ 1 < e.nrepsUsed) ∧
        e.fracUnassignedTop20 < 2/5) ∨
       (p.qualityPenalizeSingletons = true ∧ e.nrepsUsed = 1 ∧
        (e.fracUnassignedTop20 < 2/5 ∧
         e.numUnassignedTop20 < assignedMinusTwo e.numAssignedTop20))
    then false
    else true

/-- Inner loop of `isBadConflictingID` over the retrieved m/z window:
skip same-id entries; on a similar spectrum (dot ≥ 0.70, or ≥ 0.65 for a
penalized singleton), spare homologs (identity ≥ 0.6), otherwise the entry
is bad if the match has more replicates, or equally many and a higher
probability. -/
def conflictScan (ctx : Collab) (p : CreateParams) (e : Entry) (pep : Peptide) :
    List Entry → Bool
  | [] => false
  | c :: rest =>
    if e.libId ≠ c.libId then
      let dot := ctx.compare e.peaks c.peaks
      if 7/10 ≤ dot ∨
         (p.qualityPenalizeSingletons = true ∧ e.nrepsUsed = 1 ∧ 13/20 ≤ dot) then
        if (match c.peptide with
            | some q => ctx.isHomolog pep q (3/5)
            | none => false) then
          conflictScan ctx p e pep rest
        else if e.nrepsUsed < c.nrepsUsed then true
        else if c.nrepsUsed = e.nrepsUsed ∧ e.prob < c.prob then true
        else conflictScan ctx p e pep rest
      else conflictScan ctx p e pep rest
    else conflictScan ctx p e pep rest

/-- Level-2 conflicting-ID check (`isBadConflictingID`).  Entries without a
peptide return `false` before the search library is touched; otherwise the
search library pointer is dereferenced (`none` models the NULL crash) and
all entries within ±4.5 m/z are scanned.  The window retrieval models the
collaborator `SpectraSTLib::retrieve` per the spec. -/
def isBadConflictingIDQF (ctx : Collab) (p : CreateParams) (qfLib : Option RefLib)
    (e : Entry) : Option Bool :=
  match e.peptide with
  | none => some false
  | some pep =>
    match qfLib with
    | none => none
    | some L =>
      some (conflictScan ctx p e pep (L.entries.filter (fun c =>
        decide (e.precursorMz - 9/2 ≤ c.precursorMz) &&
        decide (c.precursorMz ≤ e.precursorMz + 9/2))))

/-- Level-3 shared-sequence check (`hasSharedSequence`).  Entries without a
peptide return `false` before the search-library pointer is dereferenced;
otherwise the peptide index of the search library is queried. -/
def hasSharedSequenceQF (qfLib : Option RefLib) (e : Entry) : Option Bool :=
  match e.peptide with
  | none => some false
  | some pep =>
    match qfLib with
    | none => none
    | some L => some (L.sharedSeq pep e.fragType)

/-- Modelled from the spec: `SpectraSTPeakList::removeInquoratePeaks` (a
collaborator not in the given sources) prunes every peak seen in fewer than
`minNumRepWithPeak` replicates. -/
def removeInquoratePeaks (minNumRepWithPeak : Nat) (peaks : List Peak) : List Peak :=
  peaks.filter (fun pk => minNumRepWithPeak ≤ pk.numRepsWithPeak)

/-- The peak-quorum support threshold:
`(unsigned int)(numRepsUsed * peakQuorum - 0.00001) + 1`, clamped below at 1.
The C cast truncates toward zero (a small negative argument yields 0). -/
def minNumRepWithPeak (p : CreateParams) (numRepsUsed : Nat) : Nat :=
  let m := (⌊(numRepsUsed : ℚ) * p.peakQuorum - 1/100000⌋).toNat + 1
  if m < 1 then 1 else m

/-- The pruned entry returned on the successful exit of the cascade. -/
def qfFinishEntry (p : CreateParams) (e : Entry) (status : String) : Entry :=
  { e with status := status,
           peaks := removeInquoratePeaks (minNumRepWithPeak p e.nrepsUsed) e.peaks }

/-- The successful exit of the cascade: enforce the peak quorum on the peak
list and return the kept entry. -/
def qfFinish (p : CreateParams) (e : Entry) (status : String) (st : QFStats) :
    Bool × Entry × QFStats :=
  (true, qfFinishEntry p e status, st)

/-- Tail of the quality-filter cascade: the level-1 impurity block followed
by the unconditional peak-quorum pruning and the final successful return.
The status label accumulated by the marking blocks is threaded separately
and applied to the entry at each return point (the C++ code mutates the
entry in place). -/
def qfCheckLevel1 (_ctx : Collab) (p : CreateParams) (e : Entry) (status : String)
    (st : QFStats) (inquorate singleton unconfirmed badConflictingID : Bool) :
    Bool × Entry × QFStats :=
  if 1 ≤ p.qualityLevelRemove ∨ 1 ≤ p.qualityLevelMark then
    if isImpureB p e then
      let st :=
        { st with
          Q1 := st.Q1 + 1
          Q1Q5 := st.Q1Q5 + (if inquorate then 1 else 0)
          Q1Q4 := st.Q1Q4 + (if singleton then 1 else 0)
          Q1Q4Q5 := st.Q1Q4Q5 + (if singleton then 1 else 0)
          Q1Q3 := st.Q1Q3 + (if unconfirmed then 1 else 0)
          Q1Q3Q5 := st.Q1Q3Q5 + (if unconfirmed then 1 else 0)
          Q1Q3Q4 := st.Q1Q3Q4 + (if singleton ∧ unconfirmed then 1 else 0)
          Q1Q3Q4Q5 := st.Q1Q3Q4Q5 + (if singleton ∧ unconfirmed then 1 else 0)
          Q1Q2 := st.Q1Q2 + (if badConflictingID then 1 else 0)
          Q1Q2Q5 := st.Q1Q2Q5 + (if badConflictingID ∧ inquorate then 1 else 0)
          Q1Q2Q4 := st.Q1Q2Q4 + (if badConflictingID ∧ singleton then 1 else 0)
          Q1Q2Q4Q5 := st.Q1Q2Q4Q5 + (if badConflictingID ∧ singleton then 1 else 0)
          Q1Q2Q3 := st.Q1Q2Q3 + (if badConflictingID ∧ unconfirmed then 1 else 0)
          Q1Q2Q3Q5 := st.Q1Q2Q3Q5 + (if badConflictingID ∧ unconfirmed then 1 else 0)
          Q1Q2Q3Q4 := st.Q1Q2Q3Q4 +
            (if badConflictingID ∧ singleton ∧ unconfirmed then 1 else 0)
          Q1Q2Q3Q4Q5 := st.Q1Q2Q3Q4Q5 +
            (if badConflictingID ∧ singleton ∧ unconfirmed then 1 else 0) }
      if 1 ≤ p.qualityLevelRemove then (false, { e with status := status }, st)
      else
        qfFinish p e (if 1 ≤ p.qualityLevelMark then "Impure" else status) st
    else qfFinish p e status st
  else qfFinish p e status st

/-- Level-2 block of the cascade (conflicting IDs), continuing into level 1. -/
def qfCheckLevel2 (ctx : Collab) (p : CreateParams) (qfLib : Option RefLib)
    (e : Entry) (status : String) (st : QFStats)
    (inquorate singleton unconfirmed : Bool) :
    Option (Bool × Entry × QFStats) :=
  if 2 ≤ p.qualityLevelRemove ∨ 2 ≤ p.qualityLevelMark then
    (isBadConflictingIDQF ctx p qfLib e).bind fun bad =>
      if bad then
        let st :=
          { st with
            Q2 := st.Q2 + 1
            Q2Q5 := st.Q2Q5 + (if inquorate then 1 else 0)
            Q2Q4 := st.Q2Q4 + (if singleton then 1 else 0)
            Q2Q4Q5 := st.Q2Q4Q5 + (if singleton then 1 else 0)
            Q2Q3 := st.Q2Q3 + (if unconfirmed then 1 else 0)
            Q2Q3Q5 := st.Q2Q3Q5 + (if unconfirmed then 1 else 0)
            Q2Q3Q4 := st.Q2Q3Q4 + (if singleton ∧ unconfirmed then 1 else 0)
            Q2Q3Q4Q5 := st.Q2Q3Q4Q5 + (if singleton ∧ unconfirmed then 1 else 0) }
        if 2 ≤ p.qualityLevelRemove then some (false, { e with status := status }, st)
        else
          some (qfCheckLevel1 ctx p e
            (if 2 ≤ p.qualityLevelMark then "Conflicting_ID" else status) st
            inquorate singleton unconfirmed true)
      else some (qfCheckLevel1 ctx p e status st inquorate singleton unconfirmed false)
  else some (qfCheckLevel1 ctx p e status st inquorate singleton unconfirmed false)

/-- Level-3 block of the cascade (inquorate and unconfirmed), gated on
inquorate entries, continuing into level 2. -/
def qfCheckLevel3 (ctx : Collab) (p : CreateParams) (qfLib : Option RefLib)
    (e : Entry) (status : String) (st : QFStats) (inquorate singleton : Bool) :
    Option (Bool × Entry × QFStats) :=
  if inquorate = true ∧ (3 ≤ p.qualityLevelRemove ∨ 3 ≤ p.qualityLevelMark) then
    (hasSharedSequenceQF qfLib e).bind fun shared =>
      if ¬shared then
        let st :=
          { st with
            Q3 := st.Q3 + 1
            Q3Q5 := st.Q3Q5 + 1
            Q3Q4 := st.Q3Q4 + (if singleton then 1 else 0)
            Q3Q4Q5 := st.Q3Q4Q5 + (if singleton then 1 else 0) }
        if 3 ≤ p.qualityLevelRemove then some (false, { e with status := status }, st)
        else
          qfCheckLevel2 ctx p qfLib e
            (if 3 ≤ p.qualityLevelMark then "Inquorate_Unconfirmed" else status) st
            inquorate singleton true
      else qfCheckLevel2 ctx p qfLib e status st inquorate singleton false
  else qfCheckLevel2 ctx p qfLib e status st inquorate singleton false

/-- Level-4 block of the cascade (singletons), gated on inquorate entries,
continuing into level 3. -/
def qfCheckLevel4 (ctx : Collab) (p : CreateParams) (qfLib : Option RefLib)
    (e : Entry) (status : String) (st : QFStats) (inquorate : Bool) :
    Option (Bool × Entry × QFStats) :=
  if inquorate = true ∧ (4 ≤ p.qualityLevelRemove ∨ 4 ≤ p.qualityLevelMark) then
    if e.nrepsUsed = 1 then
      let st := { st with Q4 := st.Q4 + 1, Q4Q5 := st.Q4Q5 + 1 }
      if 4 ≤ p.qualityLevelRemove then some (false, { e with status := status }, st)
      else
        qfCheckLevel3 ctx p qfLib e
          (if 4 ≤ p.qualityLevelMark then "Singleton" else status) st inquorate true
    else qfCheckLevel3 ctx p qfLib e status st inquorate false
  else qfCheckLevel3 ctx p qfLib e status st inquorate false

/-- The quality-filter cascade (`applyQualityFilter`): reset the status to
Normal, bump `m_count`, short-circuit on immunity, then evaluate levels 5
down to 1 with removal/marking per `qualityLevelRemove`/`qualityLevelMark`,
and finally enforce the peak quorum.  Returns `none` when the NULL
search-library pointer would be dereferenced, otherwise `some` of the keep
decision, the updated entry, and the updated statistics. -/
def applyQualityFilter (ctx : Collab) (p : CreateParams) (qfLib : Option RefLib)
    (e : Entry) (st0 : QFStats) : Option (Bool × Entry × QFStats) :=
  let st := { st0 with count := st0.count + 1 }
  if p.qualityImmuneProbThreshold ≤ e.prob then
    some (true, { e with status := "Normal" },
      { st with immuneProb := st.immuneProb + 1 })
  else if 1 < numSeqEngines p e then
    some (true, { e with status := "Normal" },
      { st with immuneEngine := st.immuneEngine + 1 })
  else
    if 5 ≤ p.qualityLevelRemove ∨ 5 ≤ p.qualityLevelMark then
      if decide (e.nrepsUsed < max p.minimumNumReplicates 2) then
        let st := { st with Q5 := st.Q5 + 1 }
        if 5 ≤ p.qualityLevelRemove then some (false, { e with status := "Normal" }, st)
        else
          qfCheckLevel4 ctx p qfLib e
            (if 5 ≤ p.qualityLevelMark then "Inquorate" else "Normal") st
            (decide (e.nrepsUsed < max p.minimumNumReplicates 2))
      else qfCheckLevel4 ctx p qfLib e "Normal" st
        (decide (e.nrepsUsed < max p.minimumNumReplicates 2))
    else qfCheckLevel4 ctx p qfLib e "Normal" st
      (decide (e.nrepsUsed < max p.minimumNumReplicates 2))

/-- The entry loop of `doQualityFilter`: for each entry of the m/z index,
run the external filters and (only if they pass) the quality-filter cascade,
inserting the processed entry on success.  Statistics thread through the
loop; a `none` from the cascade (NULL dereference) aborts the run. -/
def runQFLoop (ctx : Collab) (p : CreateParams) (qfLib : Option RefLib) :
    List Entry → QFStats → List Entry → Option (QFStats × List Entry)
  | [], st, out => some (st, out)
  | e :: es, st, out =>
    if ctx.pass e then
      match applyQualityFilter ctx p qfLib e st with
      | none => none
      | some (keep, e2, st2) =>
        runQFLoop ctx p qfLib es st2 (if keep then out ++ [ctx.process e2] else out)
    else runQFLoop ctx p qfLib es st out

/-- Remaining-count formula at level 1 logged by `doQualityFilter`
(`level1 = m_count - qfstats.Q1`), computed over `ℤ`; on the actual counter
values the C++ `unsigned int` evaluation agrees with the exact value. -/
def qfLevel1 (st : QFStats) : Int := (st.count : Int) - st.Q1

/-- Remaining-count formula at level 2 (`level2 = level1 - Q2 + Q1Q2`). -/
def qfLevel2 (st : QFStats) : Int := qfLevel1 st - st.Q2 + st.Q1Q2

/-- Remaining-count formula at level 3. -/
def qfLevel3 (st : QFStats) : Int :=
  qfLevel2 st - st.Q3 + st.Q1Q3 + st.Q2Q3 - st.Q1Q2Q3

/-- Remaining-count formula at level 4. -/
def qfLevel4 (st : QFStats) : Int :=
  qfLevel3 st - st.Q4 + st.Q1Q4 + st.Q2Q4 + st.Q3Q4 - st.Q1Q2Q4 - st.Q1Q3Q4 -
    st.Q2Q3Q4 + st.Q1Q2Q3Q4

/-- Remaining-count formula at level 5. -/
def qfLevel5 (st : QFStats) : Int :=
  qfLevel4 st - st.Q5 + st.Q1Q5 + st.Q2Q5 + st.Q3Q5 + st.Q4Q5 - st.Q1Q2Q5 -
    st.Q1Q3Q5 - st.Q1Q4Q5 - st.Q2Q3Q5 - st.Q2Q4Q5 - st.Q3Q4Q5 + st.Q1Q2Q3Q5 +
    st.Q1Q2Q4Q5 + st.Q1Q3Q4Q5 + st.Q2Q3Q4Q5 - st.Q1Q2Q3Q4Q5

/-- Whether an entry would be kept by the cascade when removal is applied at
exactly levels 1..k (`qualityLevelRemove = k`), all other parameters equal. -/
def qfSurvives (ctx : Collab) (p : CreateParams) (L : RefLib) (e : Entry)
    (k : Nat) : Bool :=
  match applyQualityFilter ctx { p with qualityLevelRemove := k } (some L) e
      qfStatsZero with
  | some (keep, _, _) => keep
  | none => false

/-- Number of entries of `es` that pass the external filters and survive
removal at exactly levels 1..k. -/
def qfSurvivorCount (ctx : Collab) (p : CreateParams) (L : RefLib)
    (es : List Entry) (k : Nat) : Int :=
  ((es.filter (fun e => ctx.pass e && qfSurvives ctx p L e k)).length : Int)

/-- One row of a peptide index: a peptide-ion key (stripped peptide and
subkey) together with its entries. -/
structure LibRow where
  peptide : String
  subkey : String
  entries : List Entry
deriving DecidableEq

/-- A peptide index, in index iteration order. -/
abbrev PepLib := List LibRow

/-- The state of the output library during a combine run: the keys present
in its own peptide index and the entries written, in insertion order. -/
structure OutState where
  keys : List (String × String)
  entries : List Entry
deriving DecidableEq

/-- Insertion into the output library (`processEntry` then `insertEntry`):
the processed entry is appended and its peptide-ion key is registered in the
output's peptide index. -/
def outInsert (ctx : Collab) (o : OutState) (e : Entry) : OutState :=
  let pe := ctx.process e
  { keys := o.keys ++ [ctx.entryKey pe], entries := o.entries ++ [pe] }

/-- Membership of a key in the output library's own peptide index
(`m_lib->getPeptideLibIndexPtr()->isInIndex`). -/
def outHasKey (o : OutState) (pep sk : String) : Bool :=
  o.keys.any (fun k => decide (k.1 = pep) && decide (k.2 = sk))

/-- Membership of a key in an input peptide index (`isInIndex`). -/
def isInIndexRow (lib : PepLib) (pep sk : String) : Bool :=
  lib.any (fun r => decide (r.peptide = pep) && decide (r.subkey = sk))

/-- Retrieval of the entries of one key from one peptide index
(`retrieve`). -/
def retrieveRow (lib : PepLib) (pep sk : String) : List Entry :=
  (lib.filter (fun r => decide (r.peptide = pep) && decide (r.subkey = sk))).flatMap
    (fun r => r.entries)

/-- The retrieval loop of `import`: accumulate the key's entries over all
input indices, breaking after the first file with entries for APPEND and
after the first file unconditionally for SUBTRACT. -/
def retrieveAllGo (p : CreateParams) (pep sk : String) :
    List (Option PepLib) → List Entry → List Entry
  | [], acc => acc
  | ol :: rest, acc =>
    match ol with
    | some lib =>
      let acc2 := acc ++ retrieveRow lib pep sk
      if p.combineAction = "APPEND" ∧ ¬acc2.isEmpty then acc2
      else if p.combineAction = "SUBTRACT" then acc2
      else retrieveAllGo p pep sk rest acc2
    | none =>
      if p.combineAction = "SUBTRACT" then acc
      else retrieveAllGo p pep sk rest acc

/-- The include decision of `import` for one peptide-ion key: UNION/APPEND
skip keys already in the output (after the first pass); INTERSECT requires
the key in every other (readable) input; SUBTRACT requires it in no other
(readable) input. -/
def includeKey (p : CreateParams) (libs : List (Option PepLib)) (out : OutState)
    (curIdx : Nat) (pep sk : String) : Bool :=
  if p.combineAction = "UNION" ∨ p.combineAction = "APPEND" then
    ¬(curIdx ≠ 0 ∧ outHasKey out pep sk)
  else if p.combineAction = "INTERSECT" then
    libs.tail.all (fun ol =>
      match ol with
      | some l => isInIndexRow l pep sk
      | none => true)
  else if p.combineAction = "SUBTRACT" then
    libs.tail.all (fun ol =>
      match ol with
      | some l => ¬isInIndexRow l pep sk
      | none => true)
  else true

/-- The build-action dispatch of `doBuildAction` for one key's entries:
best-replicate and consensus delegate to the replicate reducer (oracles);
no build action writes every filtered entry through.  The Bayesian-denoiser
deferral path is not modelled (`m_denoiser` NULL). -/
def doBuildActionModel (ctx : Collab) (p : CreateParams) (entries : List Entry)
    (out : OutState) : OutState :=
  if p.buildAction = "BEST_REPLICATE" then
    match ctx.findBestReplicate entries with
    | some best => if ctx.pass best then outInsert ctx out best else out
    | none => out
  else if p.buildAction = "CONSENSUS" then
    match ctx.makeConsensus entries with
    | some cons => if ctx.pass cons then outInsert ctx out cons else out
    | none => out
  else
    entries.foldl (fun o e => if ctx.pass e then outInsert ctx o e else o) out

/-- Processing of one key of the current input index inside the main loop
of `import`. -/
def processRow (ctx : Collab) (p : CreateParams) (libs : List (Option PepLib))
    (curIdx : Nat) (out : OutState) (r : LibRow) : OutState :=
  if includeKey p libs out curIdx r.peptide r.subkey then
    doBuildActionModel ctx p (retrieveAllGo p r.peptide r.subkey libs []) out
  else out

/-- The outer `while (true)` loop of `import`: process the index at
`curIdx`, then advance to the next input only for UNION/APPEND. -/
def combinePasses (ctx : Collab) (p : CreateParams) (libs : List (Option PepLib)) :
    List (Option PepLib) → Nat → OutState → OutState
  | [], _, out => out
  | ol :: rest, curIdx, out =>
    let out2 :=
      match ol with
      | some lib => lib.foldl (processRow ctx p libs curIdx) out
      | none => out
    if p.combineAction = "UNION" ∨ p.combineAction = "APPEND" then
      combinePasses ctx p libs rest (curIdx + 1) out2
    else out2

/-- Result of one import run: whether the output preamble was written, the
entries written, and the error messages logged. -/
structure RunOutput where
  preambleWritten : Bool
  inserted : List Entry
  errors : List String
deriving DecidableEq

/-- An error return taken before any output is written. -/
def mkConfigError (msg : String) : RunOutput :=
  { preambleWritten := false, inserted := [], errors := [msg] }

/-- The generic combine path of `import` (UNION/APPEND/INTERSECT/SUBTRACT):
the output preamble is written, then the run aborts if the first input has
no peptide index, otherwise the multi-pass key loop runs. -/
def importCombine (ctx : Collab) (p : CreateParams)
    (libs : List (Option PepLib)) : RunOutput :=
  match libs with
  | [] => { preambleWritten := true, inserted := [], errors := [] }
  | none :: _ => { preambleWritten := true, inserted := [], errors := [] }
  | some _ :: _ =>
    let out := combinePasses ctx p libs libs 0 ⟨[], []⟩
    { preambleWritten := true, inserted := out.entries, errors := [] }

/-- Scan of one other input's ±4.5 m/z window in `doSubtractHomologs`:
a match is an identical peptide, or a homolog (identity ≥ 0.7) at the same
charge; entries without a peptide are skipped.  The loop breaks on the
first match. -/
def shScanLib (ctx : Collab) (pep : Peptide) (charge : Int) : List Entry → Bool
  | [] => false
  | c :: rest =>
    match c.peptide with
    | none => shScanLib ctx pep charge rest
    | some q =>
      if pep = q ∨ (charge = c.charge ∧ ctx.isHomolog pep q (7/10)) then true
      else shScanLib ctx pep charge rest

/-- The per-entry exclusion loop of `doSubtractHomologs` over all other
inputs (NULL m/z indices are skipped); the window retrieval models the
collaborator mass-index range query per the spec. -/
def shExcluded (ctx : Collab) (pep : Peptide) (mz : ℚ) (charge : Int) :
    List (Option (List Entry)) → Bool
  | [] => false
  | ol :: rest =>
    match ol with
    | none => shExcluded ctx pep mz charge rest
    | some lib =>
      if shScanLib ctx pep charge (lib.filter (fun c =>
          decide (mz - 9/2 ≤ c.precursorMz) && decide (c.precursorMz ≤ mz + 9/2)))
      then true
      else shExcluded ctx pep mz charge rest

/-- The entry loop of `doSubtractHomologs` over the mass index of input 1
(in precursor-mass order): entries without a peptide are skipped; an entry
with a match in any other input is dropped; surviving entries are filtered
and inserted directly (no build-action reduction). -/
def doSubtractHomologs (ctx : Collab) (others : List (Option (List Entry))) :
    List Entry → List Entry
  | [] => []
  | e :: rest =>
    match e.peptide with
    | none => doSubtractHomologs ctx others rest
    | some pep =>
      if shExcluded ctx pep e.precursorMz e.charge others then
        doSubtractHomologs ctx others rest
      else if ctx.pass e then
        ctx.process e :: doSubtractHomologs ctx others rest
      else doSubtractHomologs ctx others rest

/-- Characterization of the SUBTRACT_HOMOLOGS exclusion following the
spec's words: some other input contains, within ±4.5 m/z of the entry's
precursor, an identical peptide or a matching-charge peptide whose sequence
identity with the entry's peptide is at least 0.7. -/
def specHomologMatch (ctx : Collab) (e : Entry) (pep : Peptide)
    (others : List (Option (List Entry))) : Bool :=
  others.any (fun ol =>
    match ol with
    | none => false
    | some lib =>
      lib.any (fun c =>
        decide (e.precursorMz - 9/2 ≤ c.precursorMz) &&
        decide (c.precursorMz ≤ e.precursorMz + 9/2) &&
        (match c.peptide with
         | some q =>
           decide (pep = q) || (decide (e.charge = c.charge) &&
             ctx.isHomolog pep q (7/10))
         | none => false)))

/-- Per-entry survival under SUBTRACT_HOMOLOGS per the spec's words. -/
def specSubtractKeep (ctx : Collab) (others : List (Option (List Entry)))
    (e : Entry) : Bool :=
  match e.peptide with
  | none => false
  | some pep => ¬specHomologMatch ctx e pep others && ctx.pass e

/-- Insertion into the offset set of a cluster (`std::set<off_type>`):
membership-based, no duplicates. -/
def clusterInsert (c : List Nat) (o : Nat) : List Nat :=
  if o ∈ c then c else c ++ [o]

/-- One iteration of the comparison loop of `findSpectralNeighbors` over a
slot of the isobaric-entry vector.  A slot is an entry plus its active flag
(`false` models the NULL sentinel; the object itself stays alive).  Returns
the updated slot, the updated cluster, and `some (offset, mz)` when the
slot was accepted as a hit. -/
def fsnStep (ctx : Collab) (seedPl : List Peak) (round : Nat) (minDot : ℚ)
    (low high : ℚ) (cluster : List Nat) (slot : Entry × Bool) :
    (Entry × Bool) × List Nat × Option (Nat × ℚ) :=
  if slot.2 = false then (slot, cluster, none)
  else if slot.1.libFileOffset ∈ cluster then ((slot.1, false), cluster, none)
  else if slot.1.precursorMz < low ∨ high < slot.1.precursorMz then
    (slot, cluster, none)
  else
    let e := { slot.1 with peaks := ctx.simplify slot.1.peaks }
    let dot := ctx.compare seedPl e.peaks
    if minDot - (round : ℚ) * (1/2) ≤ dot then
      ((e, true), clusterInsert cluster e.libFileOffset,
       some (e.libFileOffset, e.precursorMz))
    else if dot < 3/10 then ((e, false), cluster, none)
    else ((e, true), cluster, none)

/-- The comparison loop of `findSpectralNeighbors` over the whole vector,
threading the cluster and collecting hit indices, the running member count
and the running m/z sum. -/
def fsnLoop (ctx : Collab) (seedPl : List Peak) (round : Nat) (minDot : ℚ)
    (low high : ℚ) :
    List (Entry × Bool) → Nat → List Nat → List Nat → Nat → ℚ →
    List (Entry × Bool) × List Nat × List Nat × Nat × ℚ
  | [], _, cluster, hits, num, sum => ([], cluster, hits, num, sum)
  | slot :: rest, i, cluster, hits, num, sum =>
    match fsnStep ctx seedPl round minDot low high cluster slot with
    | (slot2, cluster2, acc) =>
      let next :=
        match acc with
        | some (_, mz) => (hits ++ [i], num + 1, sum + mz)
        | none => (hits, num, sum)
      match fsnLoop ctx seedPl round minDot low high rest (i + 1) cluster2
          next.1 next.2.1 next.2.2 with
      | (rest2, cluster3, hits3, num3, sum3) =>
        (slot2 :: rest2, cluster3, hits3, num3, sum3)

/-- One invocation body of `findSpectralNeighbors`: the seed's peak list is
simplified, the ±2.5 window narrowed by the round is scanned, hits are
accepted at the relaxed threshold `minimumDot - 0.5 * round`, hopeless
slots (dot < 0.3) are deactivated, and — below the `round >= 2` cutoff —
each hit is recursed into (via `recur`) with the running mean cluster m/z
as the new window center. -/
def fsnRound (ctx : Collab) (p : CreateParams)
    (recur : Entry → ℚ → Nat → List (Entry × Bool) → List Nat →
      List (Entry × Bool) × List Nat)
    (seed : Entry) (rootMz : ℚ) (round : Nat) (iso : List (Entry × Bool))
    (cluster : List Nat) : List (Entry × Bool) × List Nat :=
  let seedPl := ctx.simplify seed.peaks
  let low := rootMz - 5/2 + (round : ℚ)
  let high := rootMz + 5/2 - (round : ℚ)
  match fsnLoop ctx seedPl round p.unidentifiedClusterMinimumDot low high iso 0
      cluster [] cluster.length (rootMz * (cluster.length : ℚ)) with
  | (iso2, cluster2, hits, num, sum) =>
    if 2 ≤ round then (iso2, cluster2)
    else
      let meanMz := sum / (num : ℚ)
      hits.foldl (fun st i =>
        match st.1.get? i with
        | none => st
        | some slot => recur slot.1 meanMz (round + 1) st.1 st.2)
        (iso2, cluster2)

/-- Recursive neighbor expansion (`findSpectralNeighbors`), with an explicit
fuel argument for structural recursion; the source recursion is bounded by
the `round >= 2` cutoff inside `fsnRound`, so fuel 3 at round 0 never runs
out. -/
def fsnGo (ctx : Collab) (p : CreateParams) :
    Nat → Entry → ℚ → Nat → List (Entry × Bool) → List Nat →
    List (Entry × Bool) × List Nat
  | 0, _, _, _, iso, cluster => (iso, cluster)
  | fuel + 1, seed, rootMz, round, iso, cluster =>
    fsnRound ctx p (fsnGo ctx p fuel) seed rootMz round iso cluster

/-- Entry point of the neighbor expansion as called from
`doSimilarityClustering` (round 0; recursion depth is bounded by 3). -/
def findSpectralNeighbors (ctx : Collab) (p : CreateParams) (seed : Entry)
    (rootMz : ℚ) (iso : List (Entry × Bool)) (cluster : List Nat) :
    List (Entry × Bool) × List Nat :=
  fsnGo ctx p 3 seed rootMz 0 iso cluster

/-- The single input file of a quality-filter run as produced by
`openSplibs`: its entries in m/z-index order, whether its peptide index
passed the uniqueness check, and the re-opened search copy. -/
structure QFFile where
  entries : List Entry
  unique : Bool
  refLib : RefLib

/-- The opened inputs and collaborator continuations of one `import` run:
the number of input file names, the peptide indices of the generic combine
path, the quality-filter input, the mass indices of the SUBTRACT_HOMOLOGS
path, and the post-guard bodies of the remaining single-file build actions
(decoy generation, sort by nreps, user-specified modifications, similarity
clustering), which are collaborator-heavy and quantified over. -/
structure World where
  nFiles : Nat
  pepLibs : List (Option PepLib)
  qfFile : Option QFFile
  shFirst : Option (List Entry)
  shOthers : List (Option (List Entry))
  decoyRest : RunOutput
  sortRest : RunOutput
  modsRest : RunOutput
  clusterRest : RunOutput

/-- The QUALITY_FILTER path (`doQualityFilter`): reject multi-file input,
reject an unreadable file or a non-unique library before writing the
preamble; construct the search copy only when level ≥ 2 checks are active;
then run the entry loop. -/
def doQualityFilterRun (ctx : Collab) (p : CreateParams) (w : World) : RunOutput :=
  if w.nFiles ≠ 1 then
    mkConfigError ("QUALITY FILTER: Quality filter must be applied to one .splib file only.")
  else
    match w.qfFile with
    | none =>
      { preambleWritten := false, inserted := [],
        errors := ["CREATE: Cannot open SPLIB file."] }
    | some f =>
      if f.unique = false then
        mkConfigError ("QUALITY_FILTER: Quality filter requires unique library.")
      else
        let qfLib :=
          if 2 ≤ p.qualityLevelMark ∨ 2 ≤ p.qualityLevelRemove then some f.refLib
          else none
        match runQFLoop ctx p qfLib f.entries qfStatsZero [] with
        | none =>
          { preambleWritten := true, inserted := [],
            errors := ["CRASH: NULL m_QFSearchLib dereferenced."] }
        | some (_, out) =>
          { preambleWritten := true, inserted := out, errors := [] }

/-- The SUBTRACT_HOMOLOGS path (`doSubtractHomologs` caller): the preamble
is written, then the run aborts if the first m/z index is missing,
otherwise the mass-ordered entry loop runs. -/
def doSubtractHomologsRun (ctx : Collab) (w : World) : RunOutput :=
  match w.shFirst with
  | none => { preambleWritten := true, inserted := [], errors := [] }
  | some first =>
    { preambleWritten := true,
      inserted := doSubtractHomologs ctx w.shOthers first, errors := [] }

/-- The top-level dispatch of `import`: the SUBTRACT_HOMOLOGS/build-action
conflict check, the single-file guards of the special build actions, then
the SUBTRACT_HOMOLOGS branch or the generic combine loop. -/
def importRun (ctx : Collab) (p : CreateParams) (w : World) : RunOutput :=
  if p.combineAction = "SUBTRACT_HOMOLOGS" ∧ p.buildAction ≠ "" then
    mkConfigError ("CREATE: Cannot perform build action together with combine action SUBTRACT_HOMOLOGS.")
  else if p.buildAction = "QUALITY_FILTER" then doQualityFilterRun ctx p w
  else if p.buildAction = "DECOY" then
    if w.nFiles ≠ 1 then
      mkConfigError ("DECOY: Decoy generation must be applied to one .splib file only.")
    else w.decoyRest
  else if p.buildAction = "SORT_BY_NREPS" then
    if w.nFiles ≠ 1 then
      mkConfigError ("SORT_BY_NREPS: Sorting by Nreps must be applied to one .splib file only.")
    else w.sortRest
  else if p.buildAction = "USER_SPECIFIED_MODS" then
    if w.nFiles ≠ 1 then
      mkConfigError ("SEMI-EMPIRICAL: Semi-empirical spectrum generation must be applied to one .splib file only.")
    else if p.allowableModTokens = "" then
      mkConfigError ("SEMI-EMPIRICAL: No user-specified modifications specified.")
    else w.modsRest
  else if p.buildAction = "SIMILARITY_CLUSTERING" then
    if w.nFiles ≠ 1 then
      mkConfigError ("SIMILARITY_CLUSTERING: Similarity clustering must be applied to one .splib file only.")
    else w.clusterRest
  else if p.combineAction = "SUBTRACT_HOMOLOGS" then doSubtractHomologsRun ctx w
  else importCombine ctx p w.pepLibs

/-- Immunity predicate of the cascade: probability at or above the immune
threshold, or identified by more than one search engine (when enabled). -/
def qfImmuneB (p : CreateParams) (e : Entry) : Bool :=
  decide (p.qualityImmuneProbThreshold ≤ e.prob) || decide (1 < numSeqEngines p e)

/-- Inquorate predicate: replicate count below the effective quorum
`max(minimumNumReplicates, 2)`. -/
def qfInqB (p : CreateParams) (e : Entry) : Bool :=
  decide (e.nrepsUsed < max p.minimumNumReplicates 2)

/-- Shared-sequence predicate against the (present) search library. -/
def qfSharedB (L : RefLib) (e : Entry) : Bool :=
  match e.peptide with
  | none => false
  | some pep => L.sharedSeq pep e.fragType

/-- Conflicting-ID predicate against the (present) search library. -/
def qfBadB (ctx : Collab) (p : CreateParams) (L : RefLib) (e : Entry) : Bool :=
  match e.peptide with
  | none => false
  | some pep =>
    conflictScan ctx p e pep (L.entries.filter (fun c =>
      decide (e.precursorMz - 9/2 ≤ c.precursorMz) &&
      decide (c.precursorMz ≤ e.precursorMz + 9/2)))

/-- Whether the concern of a given level is triggered by an entry (levels 4
and 3 are gated on being inquorate, as in the cascade). -/
def qfTriggered (ctx : Collab) (p : CreateParams) (L : RefLib) (e : Entry) :
    Nat → Bool
  | 5 => qfInqB p e
  | 4 => qfInqB p e && decide (e.nrepsUsed = 1)
  | 3 => qfInqB p e && !qfSharedB L e
  | 2 => qfBadB ctx p L e
  | 1 => isImpureB p e
  | _ => false

/-- Whether some removal-enabled level is triggered. -/
def qfRemoveHitB (ctx : Collab) (p : CreateParams) (L : RefLib) (e : Entry) : Bool :=
  (decide (5 ≤ p.qualityLevelRemove) && qfTriggered ctx p L e 5) ||
  (decide (4 ≤ p.qualityLevelRemove) && qfTriggered ctx p L e 4) ||
  (decide (3 ≤ p.qualityLevelRemove) && qfTriggered ctx p L e 3) ||
  (decide (2 ≤ p.qualityLevelRemove) && qfTriggered ctx p L e 2) ||
  (decide (1 ≤ p.qualityLevelRemove) && qfTriggered ctx p L e 1)

/-- The keep decision of the cascade, as a pure predicate: immune entries
are kept; otherwise the entry is kept unless a removal-enabled level is
triggered. -/
def qfPassB (ctx : Collab) (p : CreateParams) (L : RefLib) (e : Entry) : Bool :=
  qfImmuneB p e || !qfRemoveHitB ctx p L e

/-- Statistics delta of the level-5 block (when triggered). -/
def qfAddQ5 (st : QFStats) (t : Bool) : QFStats :=
  if t then { st with Q5 := st.Q5 + 1 } else st

/-- Statistics delta of the level-4 block (when triggered). -/
def qfAddQ4 (st : QFStats) (t : Bool) : QFStats :=
  if t then { st with Q4 := st.Q4 + 1, Q4Q5 := st.Q4Q5 + 1 } else st

/-- Statistics delta of the level-3 block (when triggered), for a given
singleton flag. -/
def qfAddQ3 (st : QFStats) (t sing : Bool) : QFStats :=
  if t then
    { st with
      Q3 := st.Q3 + 1
      Q3Q5 := st.Q3Q5 + 1
      Q3Q4 := st.Q3Q4 + (if sing then 1 else 0)
      Q3Q4Q5 := st.Q3Q4Q5 + (if sing then 1 else 0) }
  else st

/-- Statistics delta of the level-2 block (when triggered), for given
inquorate/singleton/unconfirmed flags. -/
def qfAddQ2 (st : QFStats) (t inq sing unc : Bool) : QFStats :=
  if t then
    { st with
      Q2 := st.Q2 + 1
      Q2Q5 := st.Q2Q5 + (if inq then 1 else 0)
      Q2Q4 := st.Q2Q4 + (if sing then 1 else 0)
      Q2Q4Q5 := st.Q2Q4Q5 + (if sing then 1 else 0)
      Q2Q3 := st.Q2Q3 + (if unc then 1 else 0)
      Q2Q3Q5 := st.Q2Q3Q5 + (if unc then 1 else 0)
      Q2Q3Q4 := st.Q2Q3Q4 + (if sing = true ∧ unc = true then 1 else 0)
      Q2Q3Q4Q5 := st.Q2Q3Q4Q5 + (if sing = true ∧ unc = true then 1 else 0) }
  else st

/-- Statistics delta of the level-1 block (when triggered), for given
inquorate/singleton/unconfirmed/conflicting flags. -/
def qfAddQ1 (st : QFStats) (t inq sing unc bad : Bool) : QFStats :=
  if t then
    { st with
      Q1 := st.Q1 + 1
      Q1Q5 := st.Q1Q5 + (if inq then 1 else 0)
      Q1Q4 := st.Q1Q4 + (if sing then 1 else 0)
      Q1Q4Q5 := st.Q1Q4Q5 + (if sing then 1 else 0)
      Q1Q3 := st.Q1Q3 + (if unc then 1 else 0)
      Q1Q3Q5 := st.Q1Q3Q5 + (if unc then 1 else 0)
      Q1Q3Q4 := st.Q1Q3Q4 + (if sing = true ∧ unc = true then 1 else 0)
      Q1Q3Q4Q5 := st.Q1Q3Q4Q5 + (if sing = true ∧ unc = true then 1 else 0)
      Q1Q2 := st.Q1Q2 + (if bad then 1 else 0)
      Q1Q2Q5 := st.Q1Q2Q5 + (if bad = true ∧ inq = true then 1 else 0)
      Q1Q2Q4 := st.Q1Q2Q4 + (if bad = true ∧ sing = true then 1 else 0)
      Q1Q2Q4Q5 := st.Q1Q2Q4Q5 + (if bad = true ∧ sing = true then 1 else 0)
      Q1Q2Q3 := st.Q1Q2Q3 + (if bad = true ∧ unc = true then 1 else 0)
      Q1Q2Q3Q5 := st.Q1Q2Q3Q5 + (if bad = true ∧ unc = true then 1 else 0)
      Q1Q2Q3Q4 := st.Q1Q2Q3Q4 +
        (if bad = true ∧ sing = true ∧ unc = true then 1 else 0)
      Q1Q2Q3Q4Q5 := st.Q1Q2Q3Q4Q5 +
        (if bad = true ∧ sing = true ∧ unc = true then 1 else 0) }
  else st

theorem hasSharedSequenceQF_some (L : RefLib) (e : Entry) :
    hasSharedSequenceQF (some L) e = some (qfSharedB L e) := by
  unfold hasSharedSequenceQF qfSharedB
  cases e.peptide <;> rfl

theorem isBadConflictingIDQF_some (ctx : Collab) (p : CreateParams) (L : RefLib)
    (e : Entry) :
    isBadConflictingIDQF ctx p (some L) e = some (qfBadB ctx p L e) := by
  unfold isBadConflictingIDQF qfBadB
  cases e.peptide <;> rfl

theorem qfCheckLevel1_eq (ctx : Collab) (p : CreateParams) (e : Entry)
    (s : String) (st : QFStats) (inq sing unc bad : Bool)
    (hm : 1 ≤ p.qualityLevelMark) (hr : p.qualityLevelRemove = 0) :
    qfCheckLevel1 ctx p e s st inq sing unc bad =
      (true, qfFinishEntry p e (if isImpureB p e then "Impure" else s),
       qfAddQ1 st (isImpureB p e) inq sing unc bad) := by
  unfold qfCheckLevel1 qfAddQ1 qfFinish qfFinishEntry
  cases hi : isImpureB p e <;> simp [hr, hm, hi]

theorem qfCheckLevel2_eq (ctx : Collab) (p : CreateParams) (L : RefLib) (e : Entry)
    (s : String) (st : QFStats) (inq sing unc : Bool)
    (hm : 2 ≤ p.qualityLevelMark) (hr : p.qualityLevelRemove = 0) :
    qfCheckLevel2 ctx p (some L) e s st inq sing unc =
      some (qfCheckLevel1 ctx p e
        (if qfBadB ctx p L e then "Conflicting_ID" else s)
        (qfAddQ2 st (qfBadB ctx p L e) inq sing unc) inq sing unc
        (qfBadB ctx p L e)) := by
  unfold qfCheckLevel2 qfAddQ2
  rw [isBadConflictingIDQF_some]
  cases hb : qfBadB ctx p L e <;> simp [hr, hm, hb]

theorem qfCheckLevel3_eq (ctx : Collab) (p : CreateParams) (L : RefLib) (e : Entry)
    (s : String) (st : QFStats) (inq sing : Bool)
    (hm : 3 ≤ p.qualityLevelMark) (hr : p.qualityLevelRemove = 0) :
    qfCheckLevel3 ctx p (some L) e s st inq sing =
      qfCheckLevel2 ctx p (some L) e
        (if inq && !qfSharedB L e then "Inquorate_Unconfirmed" else s)
        (qfAddQ3 st (inq && !qfSharedB L e) sing) inq sing
        (inq && !qfSharedB L e) := by
  have hm2 : 2 ≤ p.qualityLevelMark := by omega
  unfold qfCheckLevel3 qfAddQ3
  rw [hasSharedSequenceQF_some]
  cases hq : inq <;> cases hsh : qfSharedB L e <;> simp [hr, hm, hq, hsh]

theorem qfCheckLevel4_eq (ctx : Collab) (p : CreateParams) (L : RefLib) (e : Entry)
    (s : String) (st : QFStats) (inq : Bool)
    (hm : 4 ≤ p.qualityLevelMark) (hr : p.qualityLevelRemove = 0) :
    qfCheckLevel4 ctx p (some L) e s st inq =
      qfCheckLevel3 ctx p (some L) e
        (if inq && decide (e.nrepsUsed = 1) then "Singleton" else s)
        (qfAddQ4 st (inq && decide (e.nrepsUsed = 1))) inq
        (inq && decide (e.nrepsUsed = 1)) := by
  unfold qfCheckLevel4 qfAddQ4
  cases hq : inq <;> by_cases hs : e.nrepsUsed = 1 <;> simp [hr, hm, hq, hs]

theorem applyQF_eq_markAll (ctx : Collab) (p : CreateParams) (L : RefLib) (e : Entry)
    (st : QFStats)
    (hm : 5 ≤ p.qualityLevelMark) (hr : p.qualityLevelRemove = 0)
    (h1 : ¬ p.qualityImmuneProbThreshold ≤ e.prob)
    (h2 : ¬ 1 < numSeqEngines p e) :
    applyQualityFilter ctx p (some L) e st =
      qfCheckLevel4 ctx p (some L) e
        (if qfInqB p e then "Inquorate" else "Normal")
        (qfAddQ5 { st with count := st.count + 1 } (qfInqB p e))
        (qfInqB p e) := by
  unfold applyQualityFilter qfAddQ5 qfInqB
  cases hq : decide (e.nrepsUsed < max p.minimumNumReplicates 2) <;>
    simp only [hq, hr, hm, if_false, if_true, Bool.false_eq_true,
      Nat.le_refl, or_true, ite_true, ite_false, if_neg, Bool.ite_eq_false_distrib,
      Bool.true_eq_false, Nat.reduceLeDiff, false_or, or_false,
      decide_True, decide_False]
  · rw [if_neg h1, if_neg h2]
  · rw [if_neg h1, if_neg h2]

theorem qfCheckLevel1_fst (ctx : Collab) (p : CreateParams) (e : Entry)
    (s : String) (st : QFStats) (inq sing unc bad : Bool) :
    (qfCheckLevel1 ctx p e s st inq sing unc bad).1 =
      !(decide (1 ≤ p.qualityLevelRemove) && isImpureB p e) := by
  unfold qfCheckLevel1
  by_cases hg : 1 ≤ p.qualityLevelRemove ∨ 1 ≤ p.qualityLevelMark
  · rw [if_pos hg]
    cases hi : isImpureB p e
    · rw [if_neg (by simp [hi])]
      simp [qfFinish]
    · rw [if_pos rfl]
      by_cases hrm : 1 ≤ p.qualityLevelRemove
      · rw [if_pos hrm]
        simp [hrm]
      · rw [if_neg hrm]
        simp [hrm, qfFinish]
  · rw [if_neg hg]
    push_neg at hg
    simp [Nat.lt_one_iff.mp hg.1, qfFinish]

theorem qfCheckLevel2_fst (ctx : Collab) (p : CreateParams) (L : RefLib)
    (e : Entry) (s : String) (st : QFStats) (inq sing unc : Bool) :
    (qfCheckLevel2 ctx p (some L) e s st inq sing unc).map (fun r => r.1) =
      some (!(decide (2 ≤ p.qualityLevelRemove) && qfBadB ctx p L e) &&
            !(decide (1 ≤ p.qualityLevelRemove) && isImpureB p e)) := by
  unfold qfCheckLevel2
  rw [isBadConflictingIDQF_some]
  by_cases hg : 2 ≤ p.qualityLevelRemove ∨ 2 ≤ p.qualityLevelMark
  · rw [if_pos hg]
    cases hb : qfBadB ctx p L e
    · simp [qfCheckLevel1_fst]
    · by_cases hrm : 2 ≤ p.qualityLevelRemove
      · simp [hrm]
      · simp [hrm, qfCheckLevel1_fst]
  · rw [if_neg hg]
    have h2 : ¬ 2 ≤ p.qualityLevelRemove := fun hc => hg (Or.inl hc)
    simp [h2, qfCheckLevel1_fst]

theorem qfCheckLevel3_fst (ctx : Collab) (p : CreateParams) (L : RefLib)
    (e : Entry) (s : String) (st : QFStats) (inq sing : Bool) :
    (qfCheckLevel3 ctx p (some L) e s st inq sing).map (fun r => r.1) =
      some (!(decide (3 ≤ p.qualityLevelRemove) && inq && !qfSharedB L e) &&
            !(decide (2 ≤ p.qualityLevelRemove) && qfBadB ctx p L e) &&
            !(decide (1 ≤ p.qualityLevelRemove) && isImpureB p e)) := by
  unfold qfCheckLevel3
  rw [hasSharedSequenceQF_some]
  cases hq : inq
  · simp [qfCheckLevel2_fst]
  · by_cases hg : 3 ≤ p.qualityLevelRemove ∨ 3 ≤ p.qualityLevelMark
    · rw [if_pos (by simp [hg])]
      cases hsh : qfSharedB L e
      · by_cases hrm : 3 ≤ p.qualityLevelRemove
        · simp [hrm]
        · simp [hrm, qfCheckLevel2_fst]
      · simp [qfCheckLevel2_fst]
    · rw [if_neg (by simp [hg])]
      have h3 : ¬ 3 ≤ p.qualityLevelRemove := fun hc => hg (Or.inl hc)
      cases hsh : qfSharedB L e <;> simp [h3, qfCheckLevel2_fst]

theorem qfCheckLevel4_fst (ctx : Collab) (p : CreateParams) (L : RefLib)
    (e : Entry) (s : String) (st : QFStats) (inq : Bool) :
    (qfCheckLevel4 ctx p (some L) e s st inq).map (fun r => r.1) =
      some (!(decide (4 ≤ p.qualityLevelRemove) && inq && decide (e.nrepsUsed = 1)) &&
            !(decide (3 ≤ p.qualityLevelRemove) && inq && !qfSharedB L e) &&
            !(decide (2 ≤ p.qualityLevelRemove) && qfBadB ctx p L e) &&
            !(decide (1 ≤ p.qualityLevelRemove) && isImpureB p e)) := by
  unfold qfCheckLevel4
  cases hq : inq
  · simp [qfCheckLevel3_fst]
  · by_cases hg : 4 ≤ p.qualityLevelRemove ∨ 4 ≤ p.qualityLevelMark
    · rw [if_pos (by simp [hg])]
      by_cases hs : e.nrepsUsed = 1
      · rw [if_pos hs]
        by_cases hrm : 4 ≤ p.qualityLevelRemove
        · simp [hrm, hs]
        · simp [hrm, hs, qfCheckLevel3_fst]
      · rw [if_neg hs]
        simp [hs, qfCheckLevel3_fst]
    · rw [if_neg (by simp [hg])]
      have h4 : ¬ 4 ≤ p.qualityLevelRemove := fun hc => hg (Or.inl hc)
      by_cases hs : e.nrepsUsed = 1 <;> simp [h4, hs, qfCheckLevel3_fst]

theorem applyQF_fst (ctx : Collab) (p : CreateParams) (L : RefLib) (e : Entry)
    (st : QFStats) :
    (applyQualityFilter ctx p (some L) e st).map (fun r => r.1) =
      some (qfPassB ctx p L e) := by
  unfold applyQualityFilter qfPassB qfImmuneB qfRemoveHitB qfTriggered qfInqB
  by_cases h1 : p.qualityImmuneProbThreshold ≤ e.prob
  · simp [h1]
  by_cases h2 : 1 < numSeqEngines p e
  · simp [h1, h2]
  simp only [h1, h2, decide_True, decide_False, if_false, if_true, ite_true,
    ite_false, if_neg, not_false_iff, Bool.false_or]
  cases hq : decide (e.nrepsUsed < max p.minimumNumReplicates 2)
  · by_cases hg : 5 ≤ p.qualityLevelRemove ∨ 5 ≤ p.qualityLevelMark
    · rw [if_pos hg]
      simp [qfCheckLevel4_fst]
      all_goals cases hb : qfBadB ctx p L e <;> cases hi : isImpureB p e <;> simp
    · rw [if_neg hg]
      have h5 : ¬ 5 ≤ p.qualityLevelRemove := fun hc => hg (Or.inl hc)
      simp [qfCheckLevel4_fst, h5]
      all_goals cases hb : qfBadB ctx p L e <;> cases hi : isImpureB p e <;> simp
  · by_cases hg : 5 ≤ p.qualityLevelRemove ∨ 5 ≤ p.qualityLevelMark
    · rw [if_pos hg]
      by_cases hrm : 5 ≤ p.qualityLevelRemove
      · simp [hrm]
      · simp [hrm, qfCheckLevel4_fst]
        all_goals cases hsh : qfSharedB L e <;> cases hb : qfBadB ctx p L e <;>
          cases hi : isImpureB p e <;> simp
        all_goals cases hs : decide (e.nrepsUsed = 1) <;> simp
    · rw [if_neg hg]
      have h5 : ¬ 5 ≤ p.qualityLevelRemove := fun hc => hg (Or.inl hc)
      simp [qfCheckLevel4_fst, h5]
      all_goals cases hsh : qfSharedB L e <;> cases hb : qfBadB ctx p L e <;>
        cases hi : isImpureB p e <;> simp
      all_goals cases hs : decide (e.nrepsUsed = 1) <;> simp

theorem conflictScan_removeUpdate (ctx : Collab) (p : CreateParams) (k : Nat)
    (e : Entry) (pep : Peptide) (l : List Entry) :
    conflictScan ctx { p with qualityLevelRemove := k } e pep l =
      conflictScan ctx p e pep l := by
  induction l with
  | nil => rfl
  | cons c rest ih => simp only [conflictScan, ih]

theorem qfBadB_removeUpdate (ctx : Collab) (p : CreateParams) (k : Nat)
    (L : RefLib) (e : Entry) :
    qfBadB ctx { p with qualityLevelRemove := k } L e = qfBadB ctx p L e := by
  unfold qfBadB
  cases e.peptide <;> simp [conflictScan_removeUpdate]

theorem isImpureB_removeUpdate (p : CreateParams) (k : Nat) (e : Entry) :
    isImpureB { p with qualityLevelRemove := k } e = isImpureB p e := rfl

theorem qfInqB_removeUpdate (p : CreateParams) (k : Nat) (e : Entry) :
    qfInqB { p with qualityLevelRemove := k } e = qfInqB p e := rfl

theorem qfImmuneB_removeUpdate (p : CreateParams) (k : Nat) (e : Entry) :
    qfImmuneB { p with qualityLevelRemove := k } e = qfImmuneB p e := rfl

theorem qfSurvives_eq_passB (ctx : Collab) (p : CreateParams) (L : RefLib)
    (e : Entry) (k : Nat) :
    qfSurvives ctx p L e k =
      qfPassB ctx { p with qualityLevelRemove := k } L e := by
  unfold qfSurvives
  have h := applyQF_fst ctx { p with qualityLevelRemove := k } L e qfStatsZero
  cases happ : applyQualityFilter ctx { p with qualityLevelRemove := k } (some L) e
      qfStatsZero with
  | none => rw [happ] at h; simp at h
  | some r => rw [happ] at h; simp at h; exact h

theorem qfSurvives_one (ctx : Collab) (p : CreateParams) (L : RefLib) (e : Entry) :
    qfSurvives ctx p L e 1 =
      (qfImmuneB p e || !isImpureB p e) := by
  rw [qfSurvives_eq_passB]
  unfold qfPassB qfRemoveHitB qfTriggered
  simp [qfBadB_removeUpdate, isImpureB_removeUpdate, qfInqB_removeUpdate,
    qfImmuneB_removeUpdate]

theorem qfSurvives_two (ctx : Collab) (p : CreateParams) (L : RefLib) (e : Entry) :
    qfSurvives ctx p L e 2 =
      (qfImmuneB p e || (!isImpureB p e && !qfBadB ctx p L e)) := by
  rw [qfSurvives_eq_passB]
  unfold qfPassB qfRemoveHitB qfTriggered
  simp [qfBadB_removeUpdate, isImpureB_removeUpdate, qfInqB_removeUpdate,
    qfImmuneB_removeUpdate]
  cases hb : qfBadB ctx p L e <;> cases hi : isImpureB p e <;> simp

theorem qfSurvives_three (ctx : Collab) (p : CreateParams) (L : RefLib) (e : Entry) :
    qfSurvives ctx p L e 3 =
      (qfImmuneB p e ||
       (!isImpureB p e && !qfBadB ctx p L e && !(qfInqB p e && !qfSharedB L e))) := by
  rw [qfSurvives_eq_passB]
  unfold qfPassB qfRemoveHitB qfTriggered qfSharedB
  simp [qfBadB_removeUpdate, isImpureB_removeUpdate, qfInqB_removeUpdate,
    qfImmuneB_removeUpdate, qfInqB]
  cases hb : qfBadB ctx p L e <;> cases hi : isImpureB p e <;>
    cases hq : qfInqB p e <;> simp_all [qfInqB] <;>
    cases hsh : qfSharedB L e <;> simp_all [qfSharedB]

theorem qfSurvives_four (ctx : Collab) (p : CreateParams) (L : RefLib) (e : Entry) :
    qfSurvives ctx p L e 4 =
      (qfImmuneB p e ||
       (!isImpureB p e && !qfBadB ctx p L e && !(qfInqB p e && !qfSharedB L e) &&
        !(qfInqB p e && decide (e.nrepsUsed = 1)))) := by
  rw [qfSurvives_eq_passB]
  unfold qfPassB qfRemoveHitB qfTriggered
  simp [qfBadB_removeUpdate, isImpureB_removeUpdate, qfInqB_removeUpdate,
    qfImmuneB_removeUpdate, qfSharedB]
  cases hb : qfBadB ctx p L e <;> cases hi : isImpureB p e <;>
    cases hq : qfInqB p e <;> simp_all [qfInqB] <;>
    cases hsh : qfSharedB L e <;> cases hs : decide (e.nrepsUsed = 1) <;>
    simp_all [qfSharedB]

theorem qfSurvives_five (ctx : Collab) (p : CreateParams) (L : RefLib) (e : Entry) :
    qfSurvives ctx p L e 5 =
      (qfImmuneB p e ||
       (!isImpureB p e && !qfBadB ctx p L e && !(qfInqB p e && !qfSharedB L e) &&
        !(qfInqB p e && decide (e.nrepsUsed = 1)) && !qfInqB p e)) := by
  rw [qfSurvives_eq_passB]
  unfold qfPassB qfRemoveHitB qfTriggered
  simp [qfBadB_removeUpdate, isImpureB_removeUpdate, qfInqB_removeUpdate,
    qfImmuneB_removeUpdate, qfSharedB]
  cases hb : qfBadB ctx p L e <;> cases hi : isImpureB p e <;>
    cases hq : qfInqB p e <;> simp_all [qfInqB] <;>
    cases hsh : qfSharedB L e <;> cases hs : decide (e.nrepsUsed = 1) <;>
    simp_all [qfSharedB]

/-- Closed form of one cascade call in a mark-everything run, for a
non-immune entry. -/
theorem applyQF_closed_markAll (ctx : Collab) (p : CreateParams) (L : RefLib)
    (e : Entry) (st : QFStats)
    (hm : 5 ≤ p.qualityLevelMark) (hr : p.qualityLevelRemove = 0)
    (h1 : ¬ p.qualityImmuneProbThreshold ≤ e.prob)
    (h2 : ¬ 1 < numSeqEngines p e) :
    applyQualityFilter ctx p (some L) e st =
      some (true,
        qfFinishEntry p e
          (if isImpureB p e then "Impure"
           else if qfBadB ctx p L e then "Conflicting_ID"
           else if qfInqB p e && !qfSharedB L e then "Inquorate_Unconfirmed"
           else if qfInqB p e && decide (e.nrepsUsed = 1) then "Singleton"
           else if qfInqB p e then "Inquorate" else "Normal"),
        qfAddQ1
          (qfAddQ2
            (qfAddQ3
              (qfAddQ4 (qfAddQ5 { st with count := st.count + 1 } (qfInqB p e))
                (qfInqB p e && decide (e.nrepsUsed = 1)))
              (qfInqB p e && !qfSharedB L e)
              (qfInqB p e && decide (e.nrepsUsed = 1)))
            (qfBadB ctx p L e) (qfInqB p e)
            (qfInqB p e && decide (e.nrepsUsed = 1))
            (qfInqB p e && !qfSharedB L e))
          (isImpureB p e) (qfInqB p e)
          (qfInqB p e && decide (e.nrepsUsed = 1))
          (qfInqB p e && !qfSharedB L e)
          (qfBadB ctx p L e)) := by
  have hm4 : 4 ≤ p.qualityLevelMark := by omega
  have hm3 : 3 ≤ p.qualityLevelMark := by omega
  have hm2 : 2 ≤ p.qualityLevelMark := by omega
  have hm1 : 1 ≤ p.qualityLevelMark := by omega
  rw [applyQF_eq_markAll ctx p L e st hm hr h1 h2,
    qfCheckLevel4_eq ctx p L e _ _ _ hm4 hr,
    qfCheckLevel3_eq ctx p L e _ _ _ _ hm3 hr,
    qfCheckLevel2_eq ctx p L e _ _ _ _ _ hm2 hr,
    qfCheckLevel1_eq ctx p e _ _ _ _ _ _ hm1 hr]

set_option maxHeartbeats 2000000 in
theorem qfLevels_step (st : QFStats) (a5 t4 t3 bad imp : Bool)
    (h4 : t4 = true → a5 = true) (h3 : t3 = true → a5 = true) :
    (qfLevel1 (qfAddQ1 (qfAddQ2 (qfAddQ3 (qfAddQ4 (qfAddQ5
        { st with count := st.count + 1 } a5) t4) t3 t4) bad a5 t4 t3)
        imp a5 t4 t3 bad) =
      qfLevel1 st + (if !imp then 1 else 0)) ∧
    (qfLevel2 (qfAddQ1 (qfAddQ2 (qfAddQ3 (qfAddQ4 (qfAddQ5
        { st with count := st.count + 1 } a5) t4) t3 t4) bad a5 t4 t3)
        imp a5 t4 t3 bad) =
      qfLevel2 st + (if !imp && !bad then 1 else 0)) ∧
    (qfLevel3 (qfAddQ1 (qfAddQ2 (qfAddQ3 (qfAddQ4 (qfAddQ5
        { st with count := st.count + 1 } a5) t4) t3 t4) bad a5 t4 t3)
        imp a5 t4 t3 bad) =
      qfLevel3 st + (if !imp && !bad && !t3 then 1 else 0)) ∧
    (qfLevel4 (qfAddQ1 (qfAddQ2 (qfAddQ3 (qfAddQ4 (qfAddQ5
        { st with count := st.count + 1 } a5) t4) t3 t4) bad a5 t4 t3)
        imp a5 t4 t3 bad) =
      qfLevel4 st + (if !imp && !bad && !t3 && !t4 then 1 else 0)) ∧
    (qfLevel5 (qfAddQ1 (qfAddQ2 (qfAddQ3 (qfAddQ4 (qfAddQ5
        { st with count := st.count + 1 } a5) t4) t3 t4) bad a5 t4 t3)
        imp a5 t4 t3 bad) =
      qfLevel5 st + (if !imp && !bad && !t3 && !t4 && !a5 then 1 else 0)) := by
  cases a5 <;> cases t4 <;> cases t3 <;> cases bad <;> cases imp <;>
    simp_all [qfAddQ1, qfAddQ2, qfAddQ3, qfAddQ4, qfAddQ5,
      qfLevel1, qfLevel2, qfLevel3, qfLevel4, qfLevel5] <;>
    omega

theorem applyQF_immuneProb (ctx : Collab) (p : CreateParams) (qfLib : Option RefLib)
    (e : Entry) (st : QFStats)
    (h1 : p.qualityImmuneProbThreshold ≤ e.prob) :
    applyQualityFilter ctx p qfLib e st =
      some (true, { e with status := "Normal" },
        { st with count := st.count + 1, immuneProb := st.immuneProb + 1 }) := by
  unfold applyQualityFilter
  simp [h1]

theorem applyQF_immuneEngine (ctx : Collab) (p : CreateParams)
    (qfLib : Option RefLib) (e : Entry) (st : QFStats)
    (h1 : ¬ p.qualityImmuneProbThreshold ≤ e.prob)
    (h2 : 1 < numSeqEngines p e) :
    applyQualityFilter ctx p qfLib e st =
      some (true, { e with status := "Normal" },
        { st with count := st.count + 1, immuneEngine := st.immuneEngine + 1 }) := by
  unfold applyQualityFilter
  simp [h1, h2]

theorem qfStep_levels (ctx : Collab) (p : CreateParams) (L : RefLib)
    (hm : 5 ≤ p.qualityLevelMark) (hr : p.qualityLevelRemove = 0)
    (e : Entry) (st : QFStats) :
    ∃ e2 st2, applyQualityFilter ctx p (some L) e st = some (true, e2, st2) ∧
      qfLevel1 st2 = qfLevel1 st + (if qfSurvives ctx p L e 1 then 1 else 0) ∧
      qfLevel2 st2 = qfLevel2 st + (if qfSurvives ctx p L e 2 then 1 else 0) ∧
      qfLevel3 st2 = qfLevel3 st + (if qfSurvives ctx p L e 3 then 1 else 0) ∧
      qfLevel4 st2 = qfLevel4 st + (if qfSurvives ctx p L e 4 then 1 else 0) ∧
      qfLevel5 st2 = qfLevel5 st + (if qfSurvives ctx p L e 5 then 1 else 0) := by
  rw [qfSurvives_one, qfSurvives_two, qfSurvives_three, qfSurvives_four,
    qfSurvives_five]
  by_cases h1 : p.qualityImmuneProbThreshold ≤ e.prob
  · have himm : qfImmuneB p e = true := by simp [qfImmuneB, h1]
    rw [applyQF_immuneProb ctx p (some L) e st h1]
    refine ⟨_, _, rfl, ?_, ?_, ?_, ?_, ?_⟩ <;>
      simp [himm, qfLevel1, qfLevel2, qfLevel3, qfLevel4, qfLevel5] <;> omega
  by_cases h2 : 1 < numSeqEngines p e
  · have himm : qfImmuneB p e = true := by simp [qfImmuneB, h2]
    rw [applyQF_immuneEngine ctx p (some L) e st h1 h2]
    refine ⟨_, _, rfl, ?_, ?_, ?_, ?_, ?_⟩ <;>
      simp [himm, qfLevel1, qfLevel2, qfLevel3, qfLevel4, qfLevel5] <;> omega
  have himm : qfImmuneB p e = false := by simp [qfImmuneB, h1, h2]
  rw [applyQF_closed_markAll ctx p L e st hm hr h1 h2]
  have hstep := qfLevels_step st (qfInqB p e)
    (qfInqB p e && decide (e.nrepsUsed = 1)) (qfInqB p e && !qfSharedB L e)
    (qfBadB ctx p L e) (isImpureB p e)
    (fun h => by cases hq : qfInqB p e <;> simp_all)
    (fun h => by cases hq : qfInqB p e <;> simp_all)
  obtain ⟨s1, s2, s3, s4, s5⟩ := hstep
  refine ⟨_, _, rfl, ?_, ?_, ?_, ?_, ?_⟩
  · rw [s1]; simp [himm]
  · rw [s2]; simp [himm]
  · rw [s3]; simp [himm]
  · rw [s4]; simp [himm]
  · rw [s5]; simp [himm]

theorem qfSurvivorCount_nil (ctx : Collab) (p : CreateParams) (L : RefLib)
    (k : Nat) : qfSurvivorCount ctx p L [] k = 0 := rfl

theorem qfSurvivorCount_cons (ctx : Collab) (p : CreateParams) (L : RefLib)
    (e : Entry) (es : List Entry) (k : Nat) :
    qfSurvivorCount ctx p L (e :: es) k =
      (if ctx.pass e && qfSurvives ctx p L e k then 1 else 0) +
        qfSurvivorCount ctx p L es k := by
  unfold qfSurvivorCount
  cases h : (ctx.pass e && qfSurvives ctx p L e k) <;>
    simp [List.filter_cons, h] <;> push_cast <;> ring

theorem runQFLoop_levels (ctx : Collab) (p : CreateParams) (L : RefLib)
    (hm : 5 ≤ p.qualityLevelMark) (hr : p.qualityLevelRemove = 0) :
    ∀ (es : List Entry) (st : QFStats) (out : List Entry),
      ∃ st2 out2, runQFLoop ctx p (some L) es st out = some (st2, out2) ∧
        qfLevel1 st2 = qfLevel1 st + qfSurvivorCount ctx p L es 1 ∧
        qfLevel2 st2 = qfLevel2 st + qfSurvivorCount ctx p L es 2 ∧
        qfLevel3 st2 = qfLevel3 st + qfSurvivorCount ctx p L es 3 ∧
        qfLevel4 st2 = qfLevel4 st + qfSurvivorCount ctx p L es 4 ∧
        qfLevel5 st2 = qfLevel5 st + qfSurvivorCount ctx p L es 5 := by
  intro es
  induction es with
  | nil =>
    intro st out
    exact ⟨st, out, rfl, by simp [qfSurvivorCount_nil], by simp [qfSurvivorCount_nil],
      by simp [qfSurvivorCount_nil], by simp [qfSurvivorCount_nil],
      by simp [qfSurvivorCount_nil]⟩
  | cons e es ih =>
    intro st out
    by_cases hpass : ctx.pass e = true
    · obtain ⟨e2, stm, happ, q1, q2, q3, q4, q5⟩ :=
        qfStep_levels ctx p L hm hr e st
      obtain ⟨st2, out2, hrun, r1, r2, r3, r4, r5⟩ :=
        ih stm (out ++ [ctx.process e2])
      refine ⟨st2, out2, ?_, ?_, ?_, ?_, ?_, ?_⟩
      · unfold runQFLoop
        rw [if_pos hpass, happ]
        simpa using hrun
      all_goals
        rw [qfSurvivorCount_cons]
      · rw [r1, q1, hpass]; simp; ring
      · rw [r2, q2, hpass]; simp; ring
      · rw [r3, q3, hpass]; simp; ring
      · rw [r4, q4, hpass]; simp; ring
      · rw [r5, q5, hpass]; simp; ring
    · obtain ⟨st2, out2, hrun, r1, r2, r3, r4, r5⟩ := ih st out
      have hp : ctx.pass e = false := by simpa using hpass
      refine ⟨st2, out2, ?_, ?_, ?_, ?_, ?_, ?_⟩
      · unfold runQFLoop
        rw [if_neg hpass]
        exact hrun
      all_goals rw [qfSurvivorCount_cons, hp]
      · rw [r1]; simp
      · rw [r2]; simp
      · rw [r3]; simp
      · rw [r4]; simp
      · rw [r5]; simp

theorem qfCheckLevel1_true_peaks (ctx : Collab) (p : CreateParams) (e : Entry)
    (s : String) (st : QFStats) (inq sing unc bad : Bool)
    (ht : (qfCheckLevel1 ctx p e s st inq sing unc bad).1 = true) :
    ((qfCheckLevel1 ctx p e s st inq sing unc bad).2.1).peaks =
      removeInquoratePeaks (minNumRepWithPeak p e.nrepsUsed) e.peaks := by
  unfold qfCheckLevel1 at ht ⊢
  by_cases hg : 1 ≤ p.qualityLevelRemove ∨ 1 ≤ p.qualityLevelMark
  · rw [if_pos hg] at ht ⊢
    cases hi : isImpureB p e
    · rw [if_neg (by simp [hi])]
      simp [qfFinish, qfFinishEntry]
    · rw [if_pos (by simp [hi])] at ht ⊢
      by_cases hrm : 1 ≤ p.qualityLevelRemove
      · rw [if_pos hrm] at ht
        simp at ht
      · rw [if_neg hrm]
        simp [qfFinish, qfFinishEntry]
  · rw [if_neg hg]
    simp [qfFinish, qfFinishEntry]

theorem qfCheckLevel2_true_peaks (ctx : Collab) (p : CreateParams)
    (qfLib : Option RefLib) (e : Entry) (s : String) (st : QFStats)
    (inq sing unc : Bool) (r : Bool × Entry × QFStats)
    (hr : qfCheckLevel2 ctx p qfLib e s st inq sing unc = some r)
    (ht : r.1 = true) :
    r.2.1.peaks = removeInquoratePeaks (minNumRepWithPeak p e.nrepsUsed) e.peaks := by
  unfold qfCheckLevel2 at hr
  by_cases hg : 2 ≤ p.qualityLevelRemove ∨ 2 ≤ p.qualityLevelMark
  · rw [if_pos hg] at hr
    rcases hbad : isBadConflictingIDQF ctx p qfLib e with _ | bad <;>
      rw [hbad] at hr <;> simp only [Option.none_bind, Option.some_bind] at hr
    · exact absurd hr (by simp)
    · by_cases hb2 : bad = true
      · rw [if_pos hb2] at hr
        by_cases hrm : 2 ≤ p.qualityLevelRemove
        · rw [if_pos hrm] at hr
          cases Option.some.inj hr
          simp at ht
        · rw [if_neg hrm] at hr
          cases Option.some.inj hr
          exact qfCheckLevel1_true_peaks ctx p e _ _ _ _ _ _ ht
      · rw [if_neg hb2] at hr
        cases Option.some.inj hr
        exact qfCheckLevel1_true_peaks ctx p e _ _ _ _ _ _ ht
  · rw [if_neg hg] at hr
    cases Option.some.inj hr
    exact qfCheckLevel1_true_peaks ctx p e _ _ _ _ _ _ ht

theorem qfCheckLevel3_true_peaks (ctx : Collab) (p : CreateParams)
    (qfLib : Option RefLib) (e : Entry) (s : String) (st : QFStats)
    (inq sing : Bool) (r : Bool × Entry × QFStats)
    (hr : qfCheckLevel3 ctx p qfLib e s st inq sing = some r)
    (ht : r.1 = true) :
    r.2.1.peaks = removeInquoratePeaks (minNumRepWithPeak p e.nrepsUsed) e.peaks := by
  unfold qfCheckLevel3 at hr
  by_cases hg : inq = true ∧ (3 ≤ p.qualityLevelRemove ∨ 3 ≤ p.qualityLevelMark)
  · rw [if_pos hg] at hr
    rcases hsh : hasSharedSequenceQF qfLib e with _ | shared <;>
      rw [hsh] at hr <;> simp only [Option.none_bind, Option.some_bind] at hr
    · exact absurd hr (by simp)
    · by_cases hs2 : shared = true
      · rw [if_neg (not_not_intro hs2)] at hr
        exact qfCheckLevel2_true_peaks ctx p qfLib e _ _ _ _ _ _ hr ht
      · rw [if_pos hs2] at hr
        by_cases hrm : 3 ≤ p.qualityLevelRemove
        · rw [if_pos hrm] at hr
          cases Option.some.inj hr
          simp at ht
        · rw [if_neg hrm] at hr
          exact qfCheckLevel2_true_peaks ctx p qfLib e _ _ _ _ _ _ hr ht
  · rw [if_neg hg] at hr
    exact qfCheckLevel2_true_peaks ctx p qfLib e _ _ _ _ _ _ hr ht

theorem qfCheckLevel4_true_peaks (ctx : Collab) (p : CreateParams)
    (qfLib : Option RefLib) (e : Entry) (s : String) (st : QFStats)
    (inq : Bool) (r : Bool × Entry × QFStats)
    (hr : qfCheckLevel4 ctx p qfLib e s st inq = some r)
    (ht : r.1 = true) :
    r.2.1.peaks = removeInquoratePeaks (minNumRepWithPeak p e.nrepsUsed) e.peaks := by
  unfold qfCheckLevel4 at hr
  by_cases hg : inq = true ∧ (4 ≤ p.qualityLevelRemove ∨ 4 ≤ p.qualityLevelMark)
  · rw [if_pos hg] at hr
    by_cases hs : e.nrepsUsed = 1
    · rw [if_pos hs] at hr
      by_cases hrm : 4 ≤ p.qualityLevelRemove
      · rw [if_pos hrm] at hr
        cases Option.some.inj hr
        simp at ht
      · rw [if_neg hrm] at hr
        exact qfCheckLevel3_true_peaks ctx p qfLib e _ _ _ _ _ hr ht
    · rw [if_neg hs] at hr
      exact qfCheckLevel3_true_peaks ctx p qfLib e _ _ _ _ _ hr ht
  · rw [if_neg hg] at hr
    exact qfCheckLevel3_true_peaks ctx p qfLib e _ _ _ _ _ hr ht

theorem applyQF_true_peaks (ctx : Collab) (p : CreateParams)
    (qfLib : Option RefLib) (e : Entry) (st : QFStats) (e2 : Entry) (st2 : QFStats)
    (h1 : ¬ p.qualityImmuneProbThreshold ≤ e.prob)
    (h2 : ¬ 1 < numSeqEngines p e)
    (h : applyQualityFilter ctx p qfLib e st = some (true, e2, st2)) :
    e2.peaks = removeInquoratePeaks (minNumRepWithPeak p e.nrepsUsed) e.peaks := by
  unfold applyQualityFilter at h
  rw [if_neg h1, if_neg h2] at h
  have run4 : ∀ (s : String) (st3 : QFStats) (inq : Bool),
      qfCheckLevel4 ctx p qfLib e s st3 inq = some (true, e2, st2) →
      e2.peaks = removeInquoratePeaks (minNumRepWithPeak p e.nrepsUsed) e.peaks :=
    fun s st3 inq hh =>
      qfCheckLevel4_true_peaks ctx p qfLib e s st3 inq (true, e2, st2) hh rfl
  by_cases hg : 5 ≤ p.qualityLevelRemove ∨ 5 ≤ p.qualityLevelMark
  · rw [if_pos hg] at h
    by_cases hq : decide (e.nrepsUsed < max p.minimumNumReplicates 2) = true
    · rw [if_pos hq] at h
      by_cases hrm : 5 ≤ p.qualityLevelRemove
      · rw [if_pos hrm] at h
        exact absurd (congrArg (fun r => r.map (fun x => x.1)) h) (by simp)
      · rw [if_neg hrm] at h
        exact run4 _ _ _ h
    · rw [if_neg hq] at h
      exact run4 _ _ _ h
  · rw [if_neg hg] at h
    exact run4 _ _ _ h

theorem qfCheckLevel1_noimp (ctx : Collab) (p : CreateParams) (e : Entry)
    (s : String) (st : QFStats) (inq sing unc bad : Bool)
    (hi : isImpureB p e = false) :
    qfCheckLevel1 ctx p e s st inq sing unc bad = qfFinish p e s st := by
  unfold qfCheckLevel1
  by_cases hg : 1 ≤ p.qualityLevelRemove ∨ 1 ≤ p.qualityLevelMark
  · rw [if_pos hg, if_neg (by simp [hi])]
  · rw [if_neg hg]

theorem qfCheckLevel3_noinq (ctx : Collab) (p : CreateParams)
    (qfLib : Option RefLib) (e : Entry) (s : String) (st : QFStats) (sing : Bool) :
    qfCheckLevel3 ctx p qfLib e s st false sing =
      qfCheckLevel2 ctx p qfLib e s st false sing false := by
  unfold qfCheckLevel3
  rw [if_neg (by simp)]

theorem qfCheckLevel4_noinq (ctx : Collab) (p : CreateParams)
    (qfLib : Option RefLib) (e : Entry) (s : String) (st : QFStats) :
    qfCheckLevel4 ctx p qfLib e s st false =
      qfCheckLevel3 ctx p qfLib e s st false false := by
  unfold qfCheckLevel4
  rw [if_neg (by simp)]

theorem qfCheckLevel2_nobad (ctx : Collab) (p : CreateParams)
    (qfLib : Option RefLib) (e : Entry) (s : String) (st : QFStats)
    (inq sing unc : Bool) (r : Bool × Entry × QFStats)
    (hb : isBadConflictingIDQF ctx p qfLib e ≠ some true)
    (hi : isImpureB p e = false)
    (hr : qfCheckLevel2 ctx p qfLib e s st inq sing unc = some r) :
    r = qfFinish p e s st := by
  unfold qfCheckLevel2 at hr
  by_cases hg : 2 ≤ p.qualityLevelRemove ∨ 2 ≤ p.qualityLevelMark
  · rw [if_pos hg] at hr
    rcases hbad : isBadConflictingIDQF ctx p qfLib e with _ | bad <;>
      rw [hbad] at hr <;> simp only [Option.none_bind, Option.some_bind] at hr
    · exact absurd hr (by simp)
    · have hb2 : bad = false := by
        cases bad
        · rfl
        · exact absurd hbad hb
      rw [hb2] at hr
      rw [if_neg (by simp)] at hr
      rw [qfCheckLevel1_noimp ctx p e s st inq sing unc false hi] at hr
      exact (Option.some.inj hr).symm
  · rw [if_neg hg] at hr
    rw [qfCheckLevel1_noimp ctx p e s st inq sing unc false hi] at hr
    exact (Option.some.inj hr).symm

theorem qfCheckLevel2_isSome (ctx : Collab) (p : CreateParams)
    (qfLib : Option RefLib) (e : Entry) (s : String) (st : QFStats)
    (inq sing unc : Bool)
    (hlib : (2 ≤ p.qualityLevelRemove ∨ 2 ≤ p.qualityLevelMark) →
      qfLib.isSome = true) :
    (qfCheckLevel2 ctx p qfLib e s st inq sing unc).isSome = true := by
  unfold qfCheckLevel2
  by_cases hg : 2 ≤ p.qualityLevelRemove ∨ 2 ≤ p.qualityLevelMark
  · rw [if_pos hg]
    rcases qfLib with _ | L
    · exact absurd (hlib hg) (by simp)
    · rw [isBadConflictingIDQF_some]
      simp only [Option.some_bind]
      split_ifs <;> simp
  · rw [if_neg hg]
    simp

theorem qfCheckLevel3_isSome (ctx : Collab) (p : CreateParams)
    (qfLib : Option RefLib) (e : Entry) (s : String) (st : QFStats)
    (inq sing : Bool)
    (hlib : (2 ≤ p.qualityLevelRemove ∨ 2 ≤ p.qualityLevelMark) →
      qfLib.isSome = true) :
    (qfCheckLevel3 ctx p qfLib e s st inq sing).isSome = true := by
  unfold qfCheckLevel3
  by_cases hg : inq = true ∧ (3 ≤ p.qualityLevelRemove ∨ 3 ≤ p.qualityLevelMark)
  · rw [if_pos hg]
    have h2 : 2 ≤ p.qualityLevelRemove ∨ 2 ≤ p.qualityLevelMark := by
      rcases hg.2 with h | h
      · exact Or.inl (by omega)
      · exact Or.inr (by omega)
    rcases qfLib with _ | L
    · exact absurd (hlib h2) (by simp)
    · rw [hasSharedSequenceQF_some]
      simp only [Option.some_bind]
      split_ifs <;>
        first
          | exact qfCheckLevel2_isSome ctx p (some L) e _ _ _ _ _ hlib
          | simp
  · rw [if_neg hg]
    exact qfCheckLevel2_isSome ctx p qfLib e _ _ _ _ _ hlib

theorem qfCheckLevel4_isSome (ctx : Collab) (p : CreateParams)
    (qfLib : Option RefLib) (e : Entry) (s : String) (st : QFStats) (inq : Bool)
    (hlib : (2 ≤ p.qualityLevelRemove ∨ 2 ≤ p.qualityLevelMark) →
      qfLib.isSome = true) :
    (qfCheckLevel4 ctx p qfLib e s st inq).isSome = true := by
  unfold qfCheckLevel4
  split_ifs <;>
    first
      | exact qfCheckLevel3_isSome ctx p qfLib e _ _ _ _ hlib
      | simp

theorem applyQF_isSome (ctx : Collab) (p : CreateParams) (qfLib : Option RefLib)
    (e : Entry) (st : QFStats)
    (hlib : (2 ≤ p.qualityLevelRemove ∨ 2 ≤ p.qualityLevelMark) →
      qfLib.isSome = true) :
    (applyQualityFilter ctx p qfLib e st).isSome = true := by
  unfold applyQualityFilter
  by_cases h1 : p.qualityImmuneProbThreshold ≤ e.prob
  · rw [if_pos h1]
    simp
  rw [if_neg h1]
  by_cases h2 : 1 < numSeqEngines p e
  · rw [if_pos h2]
    simp
  rw [if_neg h2]
  by_cases hg : 5 ≤ p.qualityLevelRemove ∨ 5 ≤ p.qualityLevelMark
  · rw [if_pos hg]
    by_cases hq : decide (e.nrepsUsed < max p.minimumNumReplicates 2) = true
    · rw [if_pos hq]
      by_cases hrm : 5 ≤ p.qualityLevelRemove
      · rw [if_pos hrm]
        simp
      · rw [if_neg hrm]
        exact qfCheckLevel4_isSome ctx p qfLib e _ _ _ hlib
    · rw [if_neg hq]
      exact qfCheckLevel4_isSome ctx p qfLib e _ _ _ hlib
  · rw [if_neg hg]
    exact qfCheckLevel4_isSome ctx p qfLib e _ _ _ hlib

theorem applyQF_normal_status (ctx : Collab) (p : CreateParams)
    (qfLib : Option RefLib) (e : Entry) (st : QFStats)
    (b : Bool) (e2 : Entry) (st2 : QFStats)
    (h : applyQualityFilter ctx p qfLib e st = some (b, e2, st2))
    (hno : p.qualityImmuneProbThreshold ≤ e.prob ∨ 1 < numSeqEngines p e ∨
      (¬(e.nrepsUsed < max p.minimumNumReplicates 2) ∧
       isBadConflictingIDQF ctx p qfLib e ≠ some true ∧
       isImpureB p e = false)) :
    b = true ∧ e2.status = "Normal" := by
  by_cases h1 : p.qualityImmuneProbThreshold ≤ e.prob
  · rw [applyQF_immuneProb ctx p qfLib e st h1] at h
    simp only [Option.some.injEq, Prod.mk.injEq] at h
    exact ⟨h.1.symm, by rw [← h.2.1]⟩
  by_cases h2 : 1 < numSeqEngines p e
  · rw [applyQF_immuneEngine ctx p qfLib e st h1 h2] at h
    simp only [Option.some.injEq, Prod.mk.injEq] at h
    exact ⟨h.1.symm, by rw [← h.2.1]⟩
  rcases hno with hc | hc | ⟨hq, hbad, himp⟩
  · exact absurd hc h1
  · exact absurd hc h2
  unfold applyQualityFilter at h
  rw [if_neg h1, if_neg h2] at h
  have hq2 : decide (e.nrepsUsed < max p.minimumNumReplicates 2) = false := by
    simp [hq]
  rw [hq2] at h
  have hmain : qfCheckLevel4 ctx p qfLib e "Normal"
      { st with count := st.count + 1 } false = some (b, e2, st2) := by
    by_cases hg : 5 ≤ p.qualityLevelRemove ∨ 5 ≤ p.qualityLevelMark
    · rw [if_pos hg] at h
      rw [if_neg (by simp)] at h
      exact h
    · rw [if_neg hg] at h
      exact h
  rw [qfCheckLevel4_noinq, qfCheckLevel3_noinq] at hmain
  have hfin := qfCheckLevel2_nobad ctx p qfLib e "Normal"
    { st with count := st.count + 1 } false false false (b, e2, st2) hbad himp hmain
  unfold qfFinish qfFinishEntry at hfin
  simp only [Prod.mk.injEq] at hfin
  exact ⟨hfin.1, by rw [hfin.2.1]⟩

/-- Trivial collaborator oracles used by the concrete witnesses and
counterexamples. -/
def ctx0 : Collab :=
  { compare := fun _ _ => 0, simplify := id, isHomolog := fun _ _ _ => false,
    pass := fun _ => true, process := id, entryKey := fun _ => ("", ""),
    findBestReplicate := fun _ => none, makeConsensus := fun _ => none }

/-- An empty reference search library. -/
def L0 : RefLib := { entries := [], sharedSeq := fun _ _ => false }

/-- A baseline concrete entry; the witnesses adjust individual fields. -/
def eBase : Entry :=
  { status := "Normal", libId := 0, libFileOffset := 0, nrepsUsed := 1,
    prob := 0, charge := 2, precursorMz := 500, fragType := "",
    peptide := some ⟨"PEPTIDE", 2, ""⟩, seEngines := none,
    fracUnassignedTop20 := 0, numUnassignedTop20 := 0, numAssignedTop20 := 10,
    peaks := [] }

/-- A baseline concrete parameter set; the witnesses adjust fields. -/
def pBase : CreateParams :=
  { combineAction := "", buildAction := "QUALITY_FILTER",
    qualityLevelRemove := 0, qualityLevelMark := 0,
    qualityImmuneProbThreshold := 1,
    qualityImmuneMultipleEngines := false, qualityPenalizeSingletons := false,
    minimumNumReplicates := 3, peakQuorum := 1,
    unidentifiedClusterMinimumDot := 7/10, allowableModTokens := "" }

/-- C1 (amended): with `qualityLevelRemove = 5` and
`minimumNumReplicates = 3`, a non-immune entry with replicate count 1 is
removed at level 5 — `applyQualityFilter` returns the failure flag, so the
caller does not insert it — and the removal is recorded under the Q5
counter only: the cascade returns before the level-4 block, so the Q4
counter is not touched. -/
theorem c1_remove5_singleton_removed_q5_only (ctx : Collab) (p : CreateParams)
    (qfLib : Option RefLib) (e : Entry) (st : QFStats)
    (hrm : p.qualityLevelRemove = 5) (hmin : p.minimumNumReplicates = 3)
    (hrep : e.nrepsUsed = 1)
    (himm1 : ¬ p.qualityImmuneProbThreshold ≤ e.prob)
    (himm2 : ¬ 1 < numSeqEngines p e) :
    applyQualityFilter ctx p qfLib e st =
      some (false, { e with status := "Normal" },
        { st with count := st.count + 1, Q5 := st.Q5 + 1 }) := by
  unfold applyQualityFilter
  rw [if_neg himm1, if_neg himm2, hrm, hmin, hrep]
  norm_num

/-- C1 witness: the amended claim applied at a concrete input. -/
theorem c1_witness :
    applyQualityFilter ctx0 { pBase with qualityLevelRemove := 5 } (some L0)
        eBase qfStatsZero =
      some (false, { eBase with status := "Normal" },
        { qfStatsZero with count := 1, Q5 := 1 }) := by
  exact c1_remove5_singleton_removed_q5_only ctx0
    { pBase with qualityLevelRemove := 5 } (some L0) eBase qfStatsZero
    rfl rfl rfl (by norm_num [pBase, eBase]) (by decide)

/-- C1 counterexample: at the same concrete input the claim's assertion
that the Q4 counter also records the removal is false — Q4 stays 0. -/
theorem c1_counterexample :
    (applyQualityFilter ctx0 { pBase with qualityLevelRemove := 5 } (some L0)
        eBase qfStatsZero).map (fun r => (r.1, r.2.2.Q5, r.2.2.Q4)) =
      some (false, 1, 0) ∧
    ¬ (applyQualityFilter ctx0 { pBase with qualityLevelRemove := 5 } (some L0)
        eBase qfStatsZero).map (fun r => r.2.2.Q4) = some (qfStatsZero.Q4 + 1) := by
  constructor
  · decide
  · decide

/-- C2 (amended): the peak-support quorum is enforced on every entry that
reaches the end of the cascade — every non-immune entry the cascade keeps
(marked or not) has its peak list pruned of peaks seen in fewer than
`ceil(replicateCount * peakQuorum)` replicates (minimum 1).  Immune entries
return before the pruning with their peak lists untouched, and removed
entries are discarded without pruning. -/
theorem c2_peak_quorum_on_kept_non_immune (ctx : Collab) (p : CreateParams)
    (qfLib : Option RefLib) (e : Entry) (st : QFStats) (e2 : Entry)
    (st2 : QFStats)
    (himm1 : ¬ p.qualityImmuneProbThreshold ≤ e.prob)
    (himm2 : ¬ 1 < numSeqEngines p e)
    (h : applyQualityFilter ctx p qfLib e st = some (true, e2, st2)) :
    e2.peaks = removeInquoratePeaks (minNumRepWithPeak p e.nrepsUsed) e.peaks :=
  applyQF_true_peaks ctx p qfLib e st e2 st2 himm1 himm2 h

/-- C2 witness: the amended claim applied at a concrete input. -/
theorem c2_witness :
    ({ eBase with nrepsUsed := 3, peaks := [] } : Entry).peaks =
      removeInquoratePeaks
        (minNumRepWithPeak pBase ({ eBase with nrepsUsed := 3 } : Entry).nrepsUsed)
        ({ eBase with nrepsUsed := 3 } : Entry).peaks := by
  have h := c2_peak_quorum_on_kept_non_immune ctx0 pBase (some L0)
    { eBase with nrepsUsed := 3 } qfStatsZero
    { eBase with nrepsUsed := 3, peaks := [] }
    { qfStatsZero with count := 1 }
    (by norm_num [pBase, eBase]) (by decide) (by decide)
  exact h

/-- C2 counterexample: an immune entry (probability at the immune
threshold) is kept with its peak list untouched even though the peak
quorum would prune its only peak, refuting the claim's "regardless of
whether the entry passes, is marked, or is immune". -/
theorem c2_counterexample :
    (applyQualityFilter ctx0 pBase (some L0)
        { eBase with prob := 1, nrepsUsed := 3, peaks := [⟨100, 1, 1⟩] }
        qfStatsZero).map (fun r => (r.1, r.2.1.peaks)) =
      some (true, [⟨100, 1, 1⟩]) ∧
    removeInquoratePeaks (minNumRepWithPeak pBase 3) [⟨100, 1, 1⟩] = [] := by
  constructor
  · decide
  · norm_num [removeInquoratePeaks, minNumRepWithPeak, pBase, List.filter]

/-- C9: the cascade unconditionally resets the entry status to Normal
before any level is evaluated; consequently an entry that triggers no
marking condition (it is immune, or it is neither inquorate nor
conflicting nor impure) is kept and emerges with status exactly Normal,
regardless of the status label it carried on input. -/
theorem c9_status_reset_normal (ctx : Collab) (p : CreateParams)
    (qfLib : Option RefLib) (e : Entry) (st : QFStats)
    (b : Bool) (e2 : Entry) (st2 : QFStats)
    (h : applyQualityFilter ctx p qfLib e st = some (b, e2, st2))
    (hno : p.qualityImmuneProbThreshold ≤ e.prob ∨ 1 < numSeqEngines p e ∨
      (¬(e.nrepsUsed < max p.minimumNumReplicates 2) ∧
       isBadConflictingIDQF ctx p qfLib e ≠ some true ∧
       isImpureB p e = false)) :
    b = true ∧ e2.status = "Normal" :=
  applyQF_normal_status ctx p qfLib e st b e2 st2 h hno

/-- Concrete input entry for the C9 witness: it carries a non-Normal
status label on input. -/
def eC9in : Entry := { eBase with status := "Garbage", nrepsUsed := 5, charge := 1 }

/-- Concrete output entry for the C9 witness. -/
def eC9out : Entry := { eBase with status := "Normal", nrepsUsed := 5, charge := 1 }

/-- C9 witness: a non-immune, quorate, clean entry carrying an arbitrary
input status label emerges as kept with status Normal. -/
theorem c9_witness : (true : Bool) = true ∧ eC9out.status = "Normal" := by
  have h := c9_status_reset_normal ctx0 pBase (some L0) eC9in
    qfStatsZero true eC9out { qfStatsZero with count := 1 }
    (by decide)
    (Or.inr (Or.inr ⟨by norm_num [eC9in, eBase, pBase], by decide, by decide⟩))
  exact h

/-- C10: the quality-filter search library is constructed exactly when
`qualityLevelMark >= 2` or `qualityLevelRemove >= 2`; under that
construction rule the cascade never dereferences a NULL search-library
pointer (its gates for the shared-sequence and conflicting-ID checks imply
the construction condition), so `applyQualityFilter` always returns a
value. -/
theorem c10_qf_search_lib_deref_safe (ctx : Collab) (p : CreateParams)
    (L : RefLib) (e : Entry) (st : QFStats) (qfLib : Option RefLib)
    (hq : qfLib =
      if 2 ≤ p.qualityLevelMark ∨ 2 ≤ p.qualityLevelRemove then some L
      else none) :
    (applyQualityFilter ctx p qfLib e st).isSome = true := by
  apply applyQF_isSome
  intro h2
  rw [hq, if_pos (Or.symm h2)]
  rfl

/-- C10 witness: the safety theorem applied at a concrete configuration
with level-2 checks active. -/
theorem c10_witness :
    (applyQualityFilter ctx0 { pBase with qualityLevelMark := 2 } (some L0)
        eBase qfStatsZero).isSome = true := by
  exact c10_qf_search_lib_deref_safe ctx0 { pBase with qualityLevelMark := 2 }
    L0 eBase qfStatsZero (some L0) (by norm_num)

/-- C5: in a quality-filter run with `qualityLevelMark >= 5` and
`qualityLevelRemove = 0`, the remaining count reported at each level k
(recovered from `m_count` and the per-level and intersection counters by
the inclusion–exclusion arithmetic of `doQualityFilter`) equals the number
of entries that pass the external filters and would survive applying
removal at exactly levels 1..k. -/
theorem c5_quality_levels_inclusion_exclusion (ctx : Collab) (p : CreateParams)
    (L : RefLib) (es : List Entry) (st : QFStats) (out : List Entry)
    (hm : 5 ≤ p.qualityLevelMark) (hr : p.qualityLevelRemove = 0)
    (hrun : runQFLoop ctx p (some L) es qfStatsZero [] = some (st, out)) :
    qfLevel1 st = qfSurvivorCount ctx p L es 1 ∧
    qfLevel2 st = qfSurvivorCount ctx p L es 2 ∧
    qfLevel3 st = qfSurvivorCount ctx p L es 3 ∧
    qfLevel4 st = qfSurvivorCount ctx p L es 4 ∧
    qfLevel5 st = qfSurvivorCount ctx p L es 5 := by
  obtain ⟨st2, out2, hrun2, r1, r2, r3, r4, r5⟩ :=
    runQFLoop_levels ctx p L hm hr es qfStatsZero []
  rw [hrun] at hrun2
  have hpair : st = st2 ∧ out = out2 := by
    have := Option.some.inj hrun2
    exact ⟨congrArg Prod.fst this, congrArg Prod.snd this⟩
  rw [hpair.1]
  have hz1 : qfLevel1 qfStatsZero = 0 := by norm_num [qfLevel1, qfStatsZero]
  have hz2 : qfLevel2 qfStatsZero = 0 := by
    norm_num [qfLevel2, qfLevel1, qfStatsZero]
  have hz3 : qfLevel3 qfStatsZero = 0 := by
    norm_num [qfLevel3, qfLevel2, qfLevel1, qfStatsZero]
  have hz4 : qfLevel4 qfStatsZero = 0 := by
    norm_num [qfLevel4, qfLevel3, qfLevel2, qfLevel1, qfStatsZero]
  have hz5 : qfLevel5 qfStatsZero = 0 := by
    norm_num [qfLevel5, qfLevel4, qfLevel3, qfLevel2, qfLevel1, qfStatsZero]
  rw [r1, r2, r3, r4, r5, hz1, hz2, hz3, hz4, hz5]
  norm_num

/-- Concrete entry for the C5 witness: a non-immune singleton with no
shared sequence, no conflicting ID, and a pure spectrum. -/
def eC5 : Entry := { eBase with charge := 1 }

/-- Concrete parameter set for the C5 witness: mark everything, remove
nothing. -/
def pC5 : CreateParams := { pBase with qualityLevelMark := 5 }

/-- Statistics expected from the C5 witness run. -/
def stC5 : QFStats :=
  { qfStatsZero with
    Q3 := 1
    Q4 := 1
    Q5 := 1
    Q3Q4 := 1
    Q3Q5 := 1
    Q4Q5 := 1
    Q3Q4Q5 := 1
    count := 1 }

/-- C5 witness: the inclusion–exclusion theorem applied to a concrete
one-entry run. -/
theorem c5_witness :
    qfLevel1 stC5 = qfSurvivorCount ctx0 pC5 L0 [eC5] 1 ∧
    qfLevel2 stC5 = qfSurvivorCount ctx0 pC5 L0 [eC5] 2 ∧
    qfLevel3 stC5 = qfSurvivorCount ctx0 pC5 L0 [eC5] 3 ∧
    qfLevel4 stC5 = qfSurvivorCount ctx0 pC5 L0 [eC5] 4 ∧
    qfLevel5 stC5 = qfSurvivorCount ctx0 pC5 L0 [eC5] 5 := by
  exact c5_quality_levels_inclusion_exclusion ctx0 pC5 L0 [eC5] stC5
    [{ eC5 with status := "Inquorate_Unconfirmed" }]
    (by decide) rfl (by decide)

/-- C3 (amended): with combine action UNION, APPEND, INTERSECT or SUBTRACT,
when the first input library fails to open or to yield a peptide index, the
run aborts with no entries written — but only after the output preamble has
already been written: `writePreamble` precedes the first-index NULL check. -/
theorem c3_first_lib_missing_aborts_after_preamble (ctx : Collab)
    (p : CreateParams) (libs : List (Option PepLib))
    (hact : p.combineAction = "UNION" ∨ p.combineAction = "APPEND" ∨
      p.combineAction = "INTERSECT" ∨ p.combineAction = "SUBTRACT")
    (hfirst : libs = [] ∨ libs.head? = some none) :
    importCombine ctx p libs =
      { preambleWritten := true, inserted := [], errors := [] } := by
  rcases hfirst with h | h
  · subst h; rfl
  · cases libs with
    | nil => simp at h
    | cons a rest =>
      cases a with
      | none => rfl
      | some l => simp at h

/-- A UNION parameter set with no build action. -/
def pUnion : CreateParams :=
  { pBase with combineAction := "UNION", buildAction := "" }

/-- C3 witness: the amended claim applied at a concrete UNION run whose
first (and only) input has no peptide index. -/
theorem c3_witness :
    importCombine ctx0 pUnion [none] =
      { preambleWritten := true, inserted := [], errors := [] } := by
  exact c3_first_lib_missing_aborts_after_preamble ctx0 pUnion [none]
    (Or.inl rfl) (Or.inr rfl)

/-- C3 counterexample: at that same run the claim's assertion that no
output preamble is written is false — the preamble flag is true. -/
theorem c3_counterexample :
    (importCombine ctx0 { pBase with combineAction := "UNION" }
        [none]).preambleWritten = true ∧
    ¬ (importCombine ctx0 { pBase with combineAction := "UNION" }
        [none]).preambleWritten = false := by
  constructor
  · rfl
  · decide

/-- Closed form of the no-build-action insertion fold of `doBuildAction`:
the passing entries are processed and appended, and their keys registered,
in order. -/
theorem foldInsert_closed (ctx : Collab) (es : List Entry) (out : OutState) :
    es.foldl (fun o e => if ctx.pass e then outInsert ctx o e else o) out =
      { keys := out.keys ++ (es.filter ctx.pass).map
          (fun e => ctx.entryKey (ctx.process e)),
        entries := out.entries ++ (es.filter ctx.pass).map ctx.process } := by
  induction es generalizing out with
  | nil => cases out; simp
  | cons e rest ih =>
    by_cases h : ctx.pass e = true
    · rw [List.foldl_cons, if_pos h, ih, List.filter_cons_of_pos h]
      simp [outInsert]
    · rw [List.foldl_cons, if_neg h, ih,
        List.filter_cons_of_neg (by simp [h])]

/-- Retrieval from a peptide index whose keys are distinct returns exactly
the entries of the looked-up row. -/
theorem retrieveRow_eq_of_nodup (A : PepLib) (r : LibRow)
    (hnodup : (A.map (fun x => (x.peptide, x.subkey))).Nodup) (hr : r ∈ A) :
    retrieveRow A r.peptide r.subkey = r.entries := by
  induction A with
  | nil => cases hr
  | cons a rest ih =>
    simp only [List.map_cons, List.nodup_cons, List.mem_map] at hnodup
    obtain ⟨hnotin, hnd⟩ := hnodup
    rcases List.mem_cons.mp hr with h | hmem
    · subst h
      unfold retrieveRow
      rw [List.filter_cons_of_pos (by simp)]
      have hnil : List.filter (fun x =>
          decide (x.peptide = r.peptide) && decide (x.subkey = r.subkey)) rest = [] := by
        rw [List.filter_eq_nil_iff]
        intro x hx hpx
        simp only [Bool.and_eq_true, decide_eq_true_eq] at hpx
        exact hnotin ⟨x, hx, by rw [hpx.1, hpx.2]⟩
      rw [hnil]
      simp
    · unfold retrieveRow at *
      rw [List.filter_cons_of_neg]
      · exact ih hnd hmem
      · simp only [Bool.and_eq_true, decide_eq_true_eq, not_and]
        intro hp hs
        exact hnotin ⟨r, hmem, by rw [hp, hs]⟩

/-- Under UNION the retrieval loop accumulates the key's entries from both
inputs (no break is taken). -/
theorem retrieveAllGo_union_two (p : CreateParams)
    (hact : p.combineAction = "UNION") (pep sk : String) (A B : PepLib)
    (acc : List Entry) :
    retrieveAllGo p pep sk [some A, some B] acc =
      acc ++ retrieveRow A pep sk ++ retrieveRow B pep sk := by
  simp [retrieveAllGo, hact, List.append_assoc]

/-- Closed form of pass 0 of UNION self-combination: with distinct keys and
no build action, every key of the first copy contributes its entries twice
(they are retrieved from both copies). -/
theorem unionPass0_closed (ctx : Collab) (p : CreateParams) (A : PepLib)
    (hact : p.combineAction = "UNION") (hbuild : p.buildAction = "")
    (hnodup : (A.map (fun x => (x.peptide, x.subkey))).Nodup) :
    ∀ (B : PepLib) (out : OutState), (∀ r ∈ B, r ∈ A) →
    B.foldl (processRow ctx p [some A, some A] 0) out =
      { keys := out.keys ++ B.flatMap (fun r =>
          ((r.entries ++ r.entries).filter ctx.pass).map
            (fun e => ctx.entryKey (ctx.process e))),
        entries := out.entries ++ B.flatMap (fun r =>
          ((r.entries ++ r.entries).filter ctx.pass).map ctx.process) } := by
  intro B
  induction B with
  | nil => intro out _; cases out; simp
  | cons r rest ih =>
    intro out hsub
    have hrA : r ∈ A := hsub r (List.mem_cons_self r rest)
    rw [List.foldl_cons]
    have hstep : processRow ctx p [some A, some A] 0 out r =
        { keys := out.keys ++ ((r.entries ++ r.entries).filter ctx.pass).map
            (fun e => ctx.entryKey (ctx.process e)),
          entries := out.entries ++
            ((r.entries ++ r.entries).filter ctx.pass).map ctx.process } := by
      unfold processRow
      rw [if_pos (by simp [includeKey, hact])]
      rw [retrieveAllGo_union_two p hact r.peptide r.subkey A A [],
        retrieveRow_eq_of_nodup A r hnodup hrA, List.nil_append]
      unfold doBuildActionModel
      rw [if_neg (by simp [hbuild]), if_neg (by simp [hbuild])]
      exact foldInsert_closed ctx (r.entries ++ r.entries) out
    rw [hstep, ih _ (fun x hx => hsub x (List.mem_cons_of_mem r hx))]
    simp [List.append_assoc]

/-- Pass 1 of UNION self-combination is a no-op: every key whose row has a
passing entry is already registered in the output index and is skipped, and
a row with no passing entry inserts nothing. -/
theorem unionPass1_noop (ctx : Collab) (p : CreateParams) (A : PepLib)
    (hact : p.combineAction = "UNION") (hbuild : p.buildAction = "")
    (hnodup : (A.map (fun x => (x.peptide, x.subkey))).Nodup)
    (out1 : OutState) :
    ∀ (B : PepLib), (∀ r ∈ B, r ∈ A) →
      (∀ r ∈ B, (∀ e ∈ r.entries, ctx.pass e = false) ∨
        outHasKey out1 r.peptide r.subkey = true) →
      B.foldl (processRow ctx p [some A, some A] 1) out1 = out1 := by
  intro B
  induction B with
  | nil => intro _ _; rfl
  | cons r rest ih =>
    intro hsub hcase
    have hrA : r ∈ A := hsub r (List.mem_cons_self r rest)
    rw [List.foldl_cons]
    have hstep : processRow ctx p [some A, some A] 1 out1 r = out1 := by
      rcases hcase r (List.mem_cons_self r rest) with hnop | hkey
      · unfold processRow
        by_cases hinc : includeKey p [some A, some A] out1 1 r.peptide r.subkey = true
        · rw [if_pos hinc]
          rw [retrieveAllGo_union_two p hact r.peptide r.subkey A A [],
            retrieveRow_eq_of_nodup A r hnodup hrA, List.nil_append]
          unfold doBuildActionModel
          rw [if_neg (by simp [hbuild]), if_neg (by simp [hbuild])]
          rw [foldInsert_closed]
          have hnil : (r.entries ++ r.entries).filter ctx.pass = [] := by
            rw [List.filter_eq_nil_iff]
            intro e he hpe
            rcases List.mem_append.mp he with h | h
            · rw [hnop e h] at hpe; cases hpe
            · rw [hnop e h] at hpe; cases hpe
          rw [hnil]
          cases out1; simp
        · rw [if_neg hinc]
      · unfold processRow
        rw [if_neg]
        simp [includeKey, hact, hkey]
    rw [hstep]
    exact ih (fun x hx => hsub x (List.mem_cons_of_mem r hx))
      (fun x hx => hcase x (List.mem_cons_of_mem r hx))

/-- C4 (amended): combining a library A with an identical copy of itself
under UNION (no build action, distinct peptide-ion keys, and the processed
entries keyed consistently with their rows) yields every key of A exactly
once, but with its entries duplicated: each key's entry list is retrieved
from both copies, so each passing entry of A is written twice. -/
theorem c4_union_self_duplicates_entries (ctx : Collab) (p : CreateParams)
    (A : PepLib)
    (hact : p.combineAction = "UNION") (hbuild : p.buildAction = "")
    (hnodup : (A.map (fun x => (x.peptide, x.subkey))).Nodup)
    (hco : ∀ r ∈ A, ∀ e ∈ r.entries, ctx.pass e = true →
      ctx.entryKey (ctx.process e) = (r.peptide, r.subkey)) :
    importCombine ctx p [some A, some A] =
      { preambleWritten := true,
        inserted := A.flatMap (fun r =>
          ((r.entries ++ r.entries).filter ctx.pass).map ctx.process),
        errors := [] } := by
  have hpass0 := unionPass0_closed ctx p A hact hbuild hnodup A ⟨[], []⟩
    (fun r hr => hr)
  simp only [List.nil_append] at hpass0
  have hkeys : ∀ r ∈ A,
      (∀ e ∈ r.entries, ctx.pass e = false) ∨
      outHasKey (A.foldl (processRow ctx p [some A, some A] 0) ⟨[], []⟩)
        r.peptide r.subkey = true := by
    intro r hr
    by_cases hp : ∀ e ∈ r.entries, ctx.pass e = false
    · exact Or.inl hp
    · right
      push_neg at hp
      obtain ⟨e, he, hpe⟩ := hp
      have hpe' : ctx.pass e = true := by
        cases h : ctx.pass e
        · exact absurd h hpe
        · rfl
      rw [hpass0]
      unfold outHasKey
      rw [List.any_eq_true]
      refine ⟨(r.peptide, r.subkey), ?_, by simp⟩
      exact List.mem_flatMap.mpr ⟨r, hr, List.mem_map.mpr
        ⟨e, List.mem_filter.mpr ⟨List.mem_append_left _ he, hpe'⟩,
          hco r hr e he hpe'⟩⟩
  have hpass1 := unionPass1_noop ctx p A hact hbuild hnodup
    (A.foldl (processRow ctx p [some A, some A] 0) ⟨[], []⟩) A
    (fun r hr => hr) hkeys
  have hcp : combinePasses ctx p [some A, some A] [some A, some A] 0 ⟨[], []⟩ =
      A.foldl (processRow ctx p [some A, some A] 0) ⟨[], []⟩ := by
    simp only [combinePasses, hact]
    rw [if_pos (Or.inl trivial), if_pos (Or.inl trivial)]
    simpa using hpass1
  simp only [importCombine]
  rw [hcp, hpass0]

/-- A one-key input library for the C4 witness. -/
def rowC4 : LibRow := { peptide := "", subkey := "", entries := [eBase] }

/-- C4 witness: the amended claim applied at a concrete one-key library
combined with itself under UNION. -/
theorem c4_witness :
    importCombine ctx0 pUnion [some [rowC4], some [rowC4]] =
      { preambleWritten := true, inserted := [eBase, eBase], errors := [] } := by
  rw [c4_union_self_duplicates_entries ctx0 pUnion [rowC4] rfl rfl
    (by decide) (by decide)]
  rfl

/-- C4 counterexample: at that same run the single entry of A appears twice
in the output, so the claim's assertion that the result is exactly A (no
duplicated entries) is false. -/
theorem c4_counterexample :
    (importCombine ctx0 pUnion [some [rowC4], some [rowC4]]).inserted =
      [eBase, eBase] ∧
    ¬ (importCombine ctx0 pUnion [some [rowC4], some [rowC4]]).inserted =
      [rowC4].flatMap (fun r => r.entries) := by
  constructor
  · rfl
  · decide

/-- C6 (amended): in the comparison loop of `findSpectralNeighbors`, an
active in-window entry not yet in the cluster is placed into the cluster by
the direct comparison exactly when its dot product against the seed reaches
the round-relaxed threshold `minimumDot - 0.5 * round`; at rounds ≥ 1 that
threshold can lie below 0.3, so a pair with dot product below 0.3 can be
clustered by direct comparison (the `dot < 0.3` test only deactivates the
entry for later rounds, and is reached only when the entry was not
accepted). -/
theorem c6_direct_comparison_threshold (ctx : Collab) (seedPl : List Peak)
    (round : Nat) (minDot : ℚ) (low high : ℚ) (cluster : List Nat) (e : Entry)
    (hmem : e.libFileOffset ∉ cluster)
    (hwin : ¬(e.precursorMz < low ∨ high < e.precursorMz)) :
    (e.libFileOffset ∈
      (fsnStep ctx seedPl round minDot low high cluster (e, true)).2.1) ↔
      minDot - (round : ℚ) * (1/2) ≤ ctx.compare seedPl (ctx.simplify e.peaks) := by
  unfold fsnStep
  rw [if_neg (by simp), if_neg hmem, if_neg hwin]
  by_cases hd : minDot - (round : ℚ) * (1/2) ≤
      ctx.compare seedPl (ctx.simplify e.peaks)
  · rw [if_pos hd]
    exact iff_of_true (by simp [clusterInsert, hmem]) hd
  · rw [if_neg hd]
    by_cases h3 : ctx.compare seedPl (ctx.simplify e.peaks) < 3/10
    · rw [if_pos h3]
      exact iff_of_false hmem hd
    · rw [if_neg h3]
      exact iff_of_false hmem hd

/-- An isobaric entry at a given offset whose single peak carries a tag
m/z used by the dot-product table of the clustering fixtures. -/
def mkClusterEntry (o : Nat) (tag : ℚ) : Entry :=
  { status := "Normal", libId := o, libFileOffset := o, nrepsUsed := 1,
    prob := 0, charge := 0, precursorMz := 100, fragType := "",
    peptide := none, seEngines := none,
    fracUnassignedTop20 := 0, numUnassignedTop20 := 0, numAssignedTop20 := 0,
    peaks := [⟨tag, 1, 1⟩] }

/-- Dot-product table of the clustering fixtures, by peak tag. -/
def dotC6 (x y : ℚ) : ℚ :=
  if (x = 0 ∧ y = 1) ∨ (x = 1 ∧ y = 0) then 4/5
  else if (x = 0 ∧ y = 2) ∨ (x = 2 ∧ y = 0) then 1/2
  else if (x = 1 ∧ y = 2) ∨ (x = 2 ∧ y = 1) then 1/4
  else 1

/-- Concrete spectrum comparator of the clustering fixtures. -/
def cmpC6 : List Peak → List Peak → ℚ := fun a b =>
  match a.head?, b.head? with
  | some pk, some qk => dotC6 pk.mz qk.mz
  | _, _ => 0

/-- Collaborator set of the clustering fixtures. -/
def ctxC6 : Collab := { ctx0 with compare := cmpC6 }

/-- Parameter set of the clustering fixtures (`minimumDot = 0.7`). -/
def pC6 : CreateParams :=
  { combineAction := "", buildAction := "SIMILARITY_CLUSTERING",
    qualityLevelRemove := 0, qualityLevelMark := 0,
    qualityImmuneProbThreshold := 1,
    qualityImmuneMultipleEngines := false, qualityPenalizeSingletons := false,
    minimumNumReplicates := 1, peakQuorum := 0,
    unidentifiedClusterMinimumDot := 7/10, allowableModTokens := "" }

/-- Clustering fixture: the seed entry, at offset 10. -/
def eC0 : Entry := mkClusterEntry 10 0

/-- Clustering fixture: a close neighbor of the seed, at offset 11. -/
def eC1 : Entry := mkClusterEntry 11 1

/-- Clustering fixture: an entry far from offset 11's spectrum, at
offset 12. -/
def eC2 : Entry := mkClusterEntry 12 2

/-- C6 witness: the threshold characterization applied at a concrete
round-1 comparison. -/
theorem c6_witness :
    (eC2.libFileOffset ∈
      (fsnStep ctxC6 (ctxC6.simplify eC1.peaks) 1 (7/10) 98 102
        [10, 11] (eC2, true)).2.1) ↔
      (7/10 : ℚ) - ((1 : Nat) : ℚ) * (1/2) ≤
        ctxC6.compare (ctxC6.simplify eC1.peaks) (ctxC6.simplify eC2.peaks) := by
  exact c6_direct_comparison_threshold ctxC6 (ctxC6.simplify eC1.peaks)
    1 (7/10) 98 102 [10, 11] eC2 (by decide) (by decide)

set_option maxHeartbeats 1000000 in
/-- C6 counterexample: the spectra at offsets 11 and 12 have dot product
1/4 < 0.3, yet the round-1 direct comparison of entry 12 against seed 11
places 12 into the cluster, and a full `findSpectralNeighbors` run from the
seed at offset 10 ends with 11 and 12 in the same cluster. -/
theorem c6_counterexample :
    ctxC6.compare eC1.peaks eC2.peaks = 1/4 ∧ (1/4 : ℚ) < 3/10 ∧
    (eC2.libFileOffset ∈
      (fsnStep ctxC6 (ctxC6.simplify eC1.peaks) 1 (7/10) 98 102
        [10, 11] (eC2, true)).2.1) ∧
    (findSpectralNeighbors ctxC6 pC6 eC0 100
      [(eC0, true), (eC1, true), (eC2, true)] [10]).2 = [10, 11, 12] := by
  refine ⟨by norm_num [ctxC6, ctx0, cmpC6, dotC6, eC1, eC2, mkClusterEntry],
    by norm_num, ?_, ?_⟩
  · norm_num [fsnStep, clusterInsert, ctxC6, ctx0, cmpC6, dotC6, eC1, eC2,
      mkClusterEntry]
  · norm_num [findSpectralNeighbors, fsnGo, fsnRound, fsnLoop, fsnStep,
      clusterInsert, ctxC6, ctx0, pC6, eC0, eC1, eC2, mkClusterEntry, cmpC6,
      dotC6]

/-- Filtering before `any` fuses into a conjunction inside `any`. -/
theorem anyFilter (w f : Entry → Bool) (l : List Entry) :
    (l.filter w).any f = l.any (fun c => w c && f c) := by
  induction l with
  | nil => rfl
  | cons c rest ih =>
    by_cases h : w c = true
    · rw [List.filter_cons_of_pos h, List.any_cons, List.any_cons, ih, h,
        Bool.true_and]
    · rw [List.filter_cons_of_neg (by simp [h]), List.any_cons, ih]
      simp only [Bool.not_eq_true] at h
      rw [h, Bool.false_and, Bool.false_or]

/-- The break-on-first-match scan of one window equals an `any` over the
window. -/
theorem shScanLib_eq_any (ctx : Collab) (pep : Peptide) (charge : Int)
    (l : List Entry) :
    shScanLib ctx pep charge l = l.any (fun c =>
      match c.peptide with
      | some q => decide (pep = q) ||
          (decide (charge = c.charge) && ctx.isHomolog pep q (7/10))
      | none => false) := by
  induction l with
  | nil => rfl
  | cons c rest ih =>
    rw [List.any_cons]
    cases hp : c.peptide with
    | none =>
      simp only [shScanLib, hp, Bool.false_or]
      exact ih
    | some q =>
      simp only [shScanLib, hp]
      by_cases h : pep = q ∨ (charge = c.charge ∧ ctx.isHomolog pep q (7/10) = true)
      · rw [if_pos h]
        have hb : (decide (pep = q) ||
            (decide (charge = c.charge) && ctx.isHomolog pep q (7/10))) = true := by
          rcases h with h | ⟨h1, h2⟩
          · simp [h]
          · simp [h1, h2]
        rw [hb, Bool.true_or]
      · rw [if_neg h]
        rw [not_or] at h
        obtain ⟨h1, h2⟩ := h
        have hb : (decide (pep = q) ||
            (decide (charge = c.charge) && ctx.isHomolog pep q (7/10))) = false := by
          rw [decide_eq_false h1, Bool.false_or]
          by_cases hc : charge = c.charge
          · cases hh : ctx.isHomolog pep q (7/10)
            · simp
            · exact absurd ⟨hc, hh⟩ h2
          · simp [hc]
        rw [hb, Bool.false_or]
        exact ih

/-- The exclusion loop of `doSubtractHomologs` computes exactly the
spec-stated homolog-match predicate. -/
theorem shExcluded_eq_spec (ctx : Collab) (e : Entry) (pep : Peptide)
    (others : List (Option (List Entry))) :
    shExcluded ctx pep e.precursorMz e.charge others =
      specHomologMatch ctx e pep others := by
  induction others with
  | nil => rfl
  | cons ol rest ih =>
    cases ol with
    | none =>
      simp only [shExcluded, specHomologMatch, List.any_cons, Bool.false_or]
      exact ih
    | some lib =>
      simp only [shExcluded, specHomologMatch, List.any_cons]
      rw [shScanLib_eq_any, anyFilter]
      by_cases h : lib.any (fun c =>
          (decide (e.precursorMz - 9/2 ≤ c.precursorMz) &&
            decide (c.precursorMz ≤ e.precursorMz + 9/2)) &&
          (match c.peptide with
            | some q => decide (pep = q) ||
                (decide (e.charge = c.charge) && ctx.isHomolog pep q (7/10))
            | none => false)) = true
      · rw [if_pos h, h, Bool.true_or]
      · rw [if_neg h]
        simp only [Bool.not_eq_true] at h
        rw [h, Bool.false_or]
        exact ih

/-- C7: under SUBTRACT_HOMOLOGS, an entry of input 1 is excluded exactly
when some other input contains, within a ±4.5 m/z window of its precursor,
an identical peptide or a matching-charge peptide of sequence identity at
least 0.7 with its peptide; the survivors are filtered and processed
directly, with no build-action reduction. -/
theorem c7_subtract_homologs_exclusion (ctx : Collab)
    (others : List (Option (List Entry))) (first : List Entry) :
    doSubtractHomologs ctx others first =
      (first.filter (specSubtractKeep ctx others)).map ctx.process := by
  induction first with
  | nil => rfl
  | cons e rest ih =>
    cases hp : e.peptide with
    | none =>
      simp only [doSubtractHomologs, hp]
      rw [List.filter_cons_of_neg (by simp [specSubtractKeep, hp])]
      exact ih
    | some pep =>
      simp only [doSubtractHomologs, hp]
      by_cases hex : shExcluded ctx pep e.precursorMz e.charge others = true
      · rw [if_pos hex]
        rw [List.filter_cons_of_neg]
        · exact ih
        · simp only [specSubtractKeep, hp]
          rw [← shExcluded_eq_spec, hex]
          simp
      · rw [if_neg hex]
        simp only [Bool.not_eq_true] at hex
        by_cases hpass : ctx.pass e = true
        · rw [if_pos hpass]
          rw [List.filter_cons_of_pos]
          · rw [List.map_cons, ih]
          · simp only [specSubtractKeep, hp]
            rw [← shExcluded_eq_spec, hex, hpass]
            rfl
        · rw [if_neg hpass]
          rw [List.filter_cons_of_neg]
          · exact ih
          · simp only [specSubtractKeep, hp]
            simp only [Bool.not_eq_true] at hpass
            rw [hpass]
            simp

/-- C8: a conflicting configuration — SUBTRACT_HOMOLOGS combined with any
non-empty build action, or more than one input file given to a
single-file-only build action (QUALITY_FILTER, DECOY, SORT_BY_NREPS,
USER_SPECIFIED_MODS, SIMILARITY_CLUSTERING) — makes the run abort before
writing the output preamble, with no entries written and an error
logged. -/
theorem c8_config_conflict_aborts (ctx : Collab) (p : CreateParams) (w : World)
    (h : (p.combineAction = "SUBTRACT_HOMOLOGS" ∧ p.buildAction ≠ "") ∨
      (w.nFiles ≠ 1 ∧ (p.buildAction = "QUALITY_FILTER" ∨
        p.buildAction = "DECOY" ∨ p.buildAction = "SORT_BY_NREPS" ∨
        p.buildAction = "USER_SPECIFIED_MODS" ∨
        p.buildAction = "SIMILARITY_CLUSTERING"))) :
    (importRun ctx p w).preambleWritten = false ∧
    (importRun ctx p w).inserted = [] ∧ (importRun ctx p w).errors ≠ [] := by
  unfold importRun
  by_cases h1 : p.combineAction = "SUBTRACT_HOMOLOGS" ∧ p.buildAction ≠ ""
  · rw [if_pos h1]
    exact ⟨rfl, rfl, by simp [mkConfigError]⟩
  · rw [if_neg h1]
    rcases h with h | ⟨hn, hb⟩
    · exact absurd h h1
    rcases hb with hb | hb | hb | hb | hb
    · rw [if_pos hb]
      unfold doQualityFilterRun
      rw [if_pos hn]
      exact ⟨rfl, rfl, by simp [mkConfigError]⟩
    · rw [hb]
      rw [if_neg (by simp), if_pos rfl, if_pos hn]
      exact ⟨rfl, rfl, by simp [mkConfigError]⟩
    · rw [hb]
      rw [if_neg (by simp), if_neg (by simp), if_pos rfl, if_pos hn]
      exact ⟨rfl, rfl, by simp [mkConfigError]⟩
    · rw [hb]
      rw [if_neg (by simp), if_neg (by simp), if_neg (by simp), if_pos rfl,
        if_pos hn]
      exact ⟨rfl, rfl, by simp [mkConfigError]⟩
    · rw [hb]
      rw [if_neg (by simp), if_neg (by simp), if_neg (by simp),
        if_neg (by simp), if_pos rfl, if_pos hn]
      exact ⟨rfl, rfl, by simp [mkConfigError]⟩

/-- A two-file input world for the C8 witness. -/
def wC8 : World :=
  { nFiles := 2, pepLibs := [], qfFile := none, shFirst := none, shOthers := [],
    decoyRest := mkConfigError (""), sortRest := mkConfigError (""),
    modsRest := mkConfigError (""), clusterRest := mkConfigError ("") }

/-- C8 witness: the abort theorem applied at a concrete two-file
QUALITY_FILTER configuration. -/
theorem c8_witness :
    (importRun ctx0 pBase wC8).preambleWritten = false ∧
    (importRun ctx0 pBase wC8).inserted = [] ∧
    (importRun ctx0 pBase wC8).errors ≠ [] := by
  exact c8_config_conflict_aborts ctx0 pBase wC8
    (Or.inr ⟨by decide, Or.inl rfl⟩)
